import Mathlib

/-!
# px4_sdk: mode state machine, setpoint registry, requirements aggregation, check reporter

A shallow embedding of `px4_sdk_cpp/src/components/mode.cpp` and of
`px4_sdk_cpp/include/px4_sdk/components/health_and_arming_checks.hpp`.

Conventions of the embedding.

* A C++ object is a Lean structure, a member function is a function from the
  object (and its arguments) to the updated object.
* A finite `float` or `double` value is the rational number it stands for (NaN and the
  infinities are not modelled). Comparisons are exact. A division is the division of IEEE
  754: the exact quotient rounded to the nearest value of the format, ties to even
  (`roundToFloat`, `float32Div`); a conversion to `int64_t` truncates toward zero.
* `_node.get_clock()->now()` is the argument `now` (nanoseconds) of every member
  function that reads the clock.
* Everything a member function does to the outside world (virtual hooks of the
  derived mode, publishers, the wall timer, the registration authority) is
  appended, in program order, to the `_trace` field.
* `std::shared_ptr<SetpointBase>` is an address (`Nat`); the objects pointed to
  live in `_heap`.
* Log output (`RCLCPP_DEBUG`, `RCLCPP_FATAL`) is not part of the state, and an `assert`
  is a precondition of the call, not a step of it.
-/

set_option autoImplicit false

namespace px4_sdk

/-! ## Data model -/

/-- Modelled from the spec: the type `ModeBase::ModeID` of `mode.hpp` (not in the sources),
the "mode identity"; an unsigned 8 bit value. -/
abbrev ModeID := Nat

/-- Modelled from the spec: the constant `ModeBase::kModeIDInvalid` of `mode.hpp` (not in
the sources), the absent optional "replace built-in mode" identity. -/
def kModeIDInvalid : ModeID := 255

/-- Modelled from the spec: the constant `VehicleStatus::ARMING_STATE_ARMED` of `px4_msgs`
(not in the sources), the arming state in which the vehicle is armed. -/
def ARMING_STATE_ARMED : Nat := 2

/-- Modelled from the spec: the constant `ConfigOverrides::SOURCE_TYPE_MODE` of `px4_msgs`
(not in the sources). -/
def SOURCE_TYPE_MODE : Nat := 0

/-- The constant `FLT_EPSILON` of `<cfloat>`, `2^-23`. -/
def FLT_EPSILON : ℚ := 1 / 8388608

/-! ## Floating point arithmetic -/

/-- The number of halvings that take `n` below 2, at most `fuel` of them. -/
def log2Fuel : Nat → Nat → Nat
  | 0, _ => 0
  | fuel + 1, n => if n < 2 then 0 else log2Fuel fuel (n / 2) + 1

/-- The position of the leading bit of `n`: `⌊log₂ n⌋` for `n > 0`. -/
def floorLog2 (n : Nat) : Nat := log2Fuel n n

/-- Rounding of IEEE 754, to nearest with ties to even, of a rational number to the binary
format with a significand of `p` bits and the smallest normal exponent `emin` (gradual
underflow below it; `float` is `p = 24`, `emin = -126`, `double` is `p = 53`,
`emin = -1022`). The result is `k * 2 ^ qe` where `2 ^ qe` is the spacing of the format at
`q` and `k` the integer nearest to `q / 2 ^ qe`. Overflow to infinity is not modelled. -/
def roundToFloat (p : Nat) (emin : Int) (q : ℚ) : ℚ :=
  if q = 0 then 0
  else
    let n := q.num.natAbs
    let d := q.den
    let e0 : Int := (floorLog2 n : Int) - (floorLog2 d : Int)
    let e : Int := if d * 2 ^ e0.toNat ≤ n * 2 ^ (-e0).toNat then e0 else e0 - 1
    let qe : Int := max e emin - ((p : Int) - 1)
    let N := n * 2 ^ (-qe).toNat
    let D := d * 2 ^ qe.toNat
    let k := N / D
    let r := N % D
    let k' :=
      if 2 * r < D then k else if D < 2 * r then k + 1 else if k % 2 = 0 then k else k + 1
    let m : ℚ := ((k' * 2 ^ qe.toNat : Nat) : ℚ) / ((2 ^ (-qe).toNat : Nat) : ℚ)
    if q < 0 then -m else m

/-- The division `a / b` of two `float` values, `b` not zero. -/
def float32Div (a b : ℚ) : ℚ := roundToFloat 24 (-126) (a / b)

/-- The conversion `static_cast<int64_t>(x)` of a `float` value within the range of
`int64_t`: truncation toward zero. -/
def floatToInt64 (x : ℚ) : Int := Int.tdiv x.num x.den

/-- Modelled from the spec: the enum `px4_sdk::Result` (not in the sources), the "result
code" of a completion, by its numeric value. -/
abbrev Result := Nat

/-- The struct `ModeRequirements` (health_and_arming_checks.hpp, lines 22-38). -/
structure ModeRequirements where
  angular_velocity : Bool := false
  attitude : Bool := false
  local_alt : Bool := false
  local_position : Bool := false
  local_position_relaxed : Bool := false
  global_position : Bool := false
  mission : Bool := false
  home_position : Bool := false
  prevent_arming : Bool := false
  manual_control : Bool := false
deriving DecidableEq, Repr

/-- Modelled from the spec: the struct `SetpointBase::Configuration` of `setpoint_base.hpp`
(not in the sources), the "configuration record declaring which physical quantities it
needs"; the fields are the ones `updateModeRequirementsFromSetpoints` reads. -/
structure Configuration where
  rates_enabled : Bool := false
  attitude_enabled : Bool := false
  altitude_enabled : Bool := false
  velocity_enabled : Bool := false
  position_enabled : Bool := false
  climb_rate_enabled : Bool := false
deriving DecidableEq, Repr

/-- Modelled from the spec: the class `SetpointBase` of `setpoint_base.hpp` (not in the
sources): "(a) a configuration record", "(b) a desired update rate", "(c) a runtime
active flag", and the should-activate callback a mode installs. The callback is the
closure `[this, setpoint]` of `addSetpointTypeImpl`; it is stored as the address it
captured. -/
structure SetpointBase where
  configuration : Configuration := {}
  desired_update_rate_hz : ℚ := 0
  _active : Bool := false
  _should_activate_cb : Option Nat := none

/-- `SetpointBase::getConfiguration`. -/
def SetpointBase.getConfiguration (s : SetpointBase) : Configuration := s.configuration

/-- `SetpointBase::desiredUpdateRateHz`. -/
def SetpointBase.desiredUpdateRateHz (s : SetpointBase) : ℚ := s.desired_update_rate_hz

/-- `SetpointBase::setActive`. -/
def SetpointBase.setActive (s : SetpointBase) (active : Bool) : SetpointBase :=
  { s with _active := active }

/-- `SetpointBase::setShouldActivateCallback`, the closure given by its captured address. -/
def SetpointBase.setShouldActivateCallback (s : SetpointBase) (captured : Nat) : SetpointBase :=
  { s with _should_activate_cb := some captured }

/-- The members of `ModeBase::Settings` that `mode.cpp` reads. -/
structure Settings where
  name : String := ""
  activate_even_while_disarmed : Bool := false
  replace_internal_mode : ModeID := kModeIDInvalid
deriving DecidableEq, Repr

/-- The members of `RegistrationSettings` that `getRegistrationSettings` writes. -/
structure RegistrationSettings where
  name : String := ""
  register_arming_check : Bool := false
  register_mode : Bool := false
  enable_replace_internal_mode : Bool := false
  replace_internal_mode : ModeID := 0
deriving DecidableEq, Repr

/-- Modelled from the spec: the class `Registration` of `registration.hpp` (not in the
sources), the external registration authority as the mode sees it: whether the mode is
registered, and the identity the authority assigned. -/
structure Registration where
  _registered : Bool := false
  _mode_id : ModeID := kModeIDInvalid
deriving DecidableEq, Repr

/-- `Registration::registered`. -/
def Registration.registered (r : Registration) : Bool := r._registered

/-- `Registration::modeId`. -/
def Registration.modeId (r : Registration) : ModeID := r._mode_id

/-- The fields of `px4_msgs::msg::VehicleStatus` that `vehicleStatusUpdated` reads. -/
structure VehicleStatus where
  arming_state : Nat
  nav_state : Nat
deriving DecidableEq, Repr

/-- The message `px4_msgs::msg::ModeCompleted` as `completed` fills it. -/
structure ModeCompleted where
  nav_state : Nat
  result : Nat
  timestamp : Nat
deriving DecidableEq, Repr

/-- The message `px4_msgs::msg::VehicleControlMode` as `activateSetpointType` fills it;
`flags` is the configuration that `fillControlMode` copies into the descriptor. -/
structure VehicleControlMode where
  source_id : Nat
  flags : Configuration
  timestamp : Nat
deriving DecidableEq, Repr

/-- What a member function of `ModeBase` does to the outside world. -/
inductive Effect where
  | onActivate
  | onDeactivate
  | updateSetpoint (dt_s : ℚ)
  | publishModeCompleted (msg : ModeCompleted)
  | publishControlMode (msg : VehicleControlMode)
  | createWallTimer (period_ms : Int)
  | resetTimer
  | overrideRegistration
  | registrationDoRegister (settings : RegistrationSettings)
  | configOverridesSetup (source_type : Nat) (mode_id : ModeID)
deriving DecidableEq, Repr

/-- The part of `HealthAndArmingChecks` that `ModeBase` uses: the stored requirements. -/
structure HealthAndArmingChecks where
  _mode_requirements : ModeRequirements := {}
deriving DecidableEq, Repr

/-- `HealthAndArmingChecks::setModeRequirements` (health_and_arming_checks.hpp, 127-130). -/
def HealthAndArmingChecks.setModeRequirements (h : HealthAndArmingChecks)
    (mode_requirements : ModeRequirements) : HealthAndArmingChecks :=
  { h with _mode_requirements := mode_requirements }

/-- `HealthAndArmingChecks::modeRequirements` (health_and_arming_checks.hpp, 132). -/
def HealthAndArmingChecks.modeRequirements (h : HealthAndArmingChecks) : ModeRequirements :=
  h._mode_requirements

/-- The state of a `ModeBase` object, with the setpoint objects its registry points to. -/
structure ModeBase where
  _registration : Registration := {}
  _settings : Settings := {}
  _health_and_arming_checks : HealthAndArmingChecks := {}
  _is_active : Bool := false
  _is_armed : Bool := false
  _completed : Bool := false
  _setpoint_update_rate_hz : ℚ := 0
  _last_setpoint_update : Int := 0
  _setpoint_update_timer : Option Int := none
  _setpoint_types : List Nat := []
  _require_manual_control_input : Bool := false
  _heap : Nat → SetpointBase := fun _ => {}
  _trace : List Effect := []

namespace ModeBase

/-- Append an effect to the trace. -/
def emit (m : ModeBase) (e : Effect) : ModeBase :=
  { m with _trace := m._trace ++ [e] }

/-- Apply `f` to the setpoint object at address `p`. -/
def updateObject (m : ModeBase) (p : Nat) (f : SetpointBase → SetpointBase) : ModeBase :=
  { m with _heap := fun q => if q = p then f (m._heap q) else m._heap q }

/-- `ModeBase::id` (mode.cpp, 42-45). -/
def id (m : ModeBase) : ModeID := m._registration.modeId

/-- The conversion `nanoseconds() / 1000` of a clock reading to an unsigned 64 bit
microsecond timestamp. -/
def timestampOf (now : Int) : Nat := (Int.tdiv now 1000 % 2 ^ 64).toNat

/-- The timer period `static_cast<int64_t>(1000.F / rate_hz)` (mode.cpp, 121): the `float`
quotient truncated toward zero (the quotient is within the range of `int64_t` for every
rate above `FLT_EPSILON`). -/
def timerPeriodMs (rate_hz : ℚ) : Int :=
  floatToInt64 (float32Div 1000 rate_hz)

/-- `ModeBase::getRegistrationSettings` (mode.cpp, 75-88). -/
def getRegistrationSettings (m : ModeBase) : RegistrationSettings :=
  let settings : RegistrationSettings :=
    { name := m._settings.name, register_arming_check := true, register_mode := true }
  if m._settings.replace_internal_mode ≠ kModeIDInvalid then
    { settings with enable_replace_internal_mode := true,
                    replace_internal_mode := m._settings.replace_internal_mode }
  else settings

/-- `ModeBase::updateSetpointUpdateTimer` (mode.cpp, 113-135). -/
def updateSetpointUpdateTimer (m : ModeBase) : ModeBase :=
  let activate := m._is_active && decide (m._setpoint_update_rate_hz > FLT_EPSILON)
  if activate then
    if m._setpoint_update_timer.isNone then
      let period := timerPeriodMs m._setpoint_update_rate_hz
      { m with _setpoint_update_timer := some period }.emit (.createWallTimer period)
    else m
  else
    if m._setpoint_update_timer.isSome then
      { m with _setpoint_update_timer := none }.emit .resetTimer
    else m

/-- The lambda the wall timer runs (mode.cpp, 122-127). `Duration::seconds()` of `rclcpp`
divides the nanoseconds, as a `double`, by `1e9`; the result is narrowed to `float`. -/
def setpointUpdateTimerCallback (m : ModeBase) (now : Int) : ModeBase :=
  let seconds : ℚ :=
    roundToFloat 53 (-1022)
      (roundToFloat 53 (-1022) ((now - m._last_setpoint_update : Int) : ℚ) / 1000000000)
  let dt_s : ℚ := roundToFloat 24 (-126) seconds
  { m with _last_setpoint_update := now }.emit (.updateSetpoint dt_s)

/-- `ModeBase::callOnActivate` (mode.cpp, 90-103). -/
def callOnActivate (m : ModeBase) (now : Int) : ModeBase :=
  let m1 := { m with _is_active := true, _completed := false, _last_setpoint_update := now }
  let m2 := m1.emit .onActivate
  let m3 :=
    if m2._setpoint_update_rate_hz > FLT_EPSILON then
      m2.emit (.updateSetpoint (float32Div 1 m2._setpoint_update_rate_hz))
    else m2
  m3.updateSetpointUpdateTimer

/-- `ModeBase::callOnDeactivate` (mode.cpp, 105-111). -/
def callOnDeactivate (m : ModeBase) : ModeBase :=
  let m1 := { m with _is_active := false }
  let m2 := m1.emit .onDeactivate
  m2.updateSetpointUpdateTimer

/-- `ModeBase::setSetpointUpdateRate` (mode.cpp, 137-142). -/
def setSetpointUpdateRate (m : ModeBase) (rate_hz : ℚ) : ModeBase :=
  let m1 :=
    if m._setpoint_update_timer.isSome then
      { m with _setpoint_update_timer := none }.emit .resetTimer
    else m
  let m2 := { m1 with _setpoint_update_rate_hz := rate_hz }
  m2.updateSetpointUpdateTimer

/-- `ModeBase::vehicleStatusUpdated` (mode.cpp, 149-168). -/
def vehicleStatusUpdated (m : ModeBase) (now : Int) (msg : VehicleStatus)
    (do_not_activate : Bool) : ModeBase :=
  let m1 := { m with _is_armed := decide (msg.arming_state = ARMING_STATE_ARMED) }
  let is_active := decide (m1.id = msg.nav_state) &&
    (m1._is_armed || m1._settings.activate_even_while_disarmed)
  if m1._is_active ≠ is_active then
    if is_active then
      if !do_not_activate then m1.callOnActivate now else m1
    else m1.callOnDeactivate
  else m1

/-- `ModeBase::completed` (mode.cpp, 170-184). -/
def completed (m : ModeBase) (now : Int) (result : Result) : ModeBase :=
  if m._completed then m
  else
    let mode_completed : ModeCompleted :=
      { nav_state := m.id % 256, result := result % 256, timestamp := timestampOf now }
    let m1 := m.emit (.publishModeCompleted mode_completed)
    { m1 with _completed := true }

/-- The body of the loop of `updateModeRequirementsFromSetpoints` (mode.cpp, 241-248). -/
def requirementsLoopBody (requirements : ModeRequirements) (config : Configuration) :
    ModeRequirements :=
  let r1 := { requirements with
    angular_velocity := requirements.angular_velocity || config.rates_enabled }
  let r2 := { r1 with attitude := r1.attitude || config.attitude_enabled }
  let r3 := { r2 with local_alt := r2.local_alt || config.altitude_enabled }
  let r4 := { r3 with local_position := r3.local_position || config.velocity_enabled }
  let r5 := { r4 with local_position := r4.local_position || config.position_enabled }
  { r5 with local_alt := r5.local_alt || config.climb_rate_enabled }

/-- The record `updateModeRequirementsFromSetpoints` computes (mode.cpp, 239-258) from the
configurations of the registered setpoint types, in registry order, and from
`_require_manual_control_input`. -/
def modeRequirementsFromSetpoints (configs : List Configuration)
    (require_manual_control_input : Bool) : ModeRequirements :=
  let requirements := configs.foldl requirementsLoopBody {}
  if require_manual_control_input then
    let r1 :=
      if requirements.local_position then
        { requirements with local_position := false, local_position_relaxed := true }
      else requirements
    { r1 with manual_control := true }
  else requirements

/-- The configurations of the registered setpoint types, in registry order. -/
def configurations (m : ModeBase) : List Configuration :=
  m._setpoint_types.map fun p => (m._heap p).getConfiguration

/-- `ModeBase::updateModeRequirementsFromSetpoints` (mode.cpp, 236-260). -/
def updateModeRequirementsFromSetpoints (m : ModeBase) : ModeBase :=
  let requirements :=
    modeRequirementsFromSetpoints m.configurations m._require_manual_control_input
  { m with _health_and_arming_checks :=
      m._health_and_arming_checks.setModeRequirements requirements }

/-- `ModeBase::activateSetpointType` (mode.cpp, 276-284). -/
def activateSetpointType (m : ModeBase) (setpoint : Nat) (now : Int) : ModeBase :=
  let m1 := m.updateObject setpoint fun s => s.setActive true
  let control_mode : VehicleControlMode :=
    { source_id := m1.id % 256,
      flags := (m1._heap setpoint).getConfiguration,
      timestamp := timestampOf now }
  m1.emit (.publishControlMode control_mode)

/-- The body of the loop of the should-activate callback (mode.cpp, 223-230), for the
callback that captured `setpoint` and the registry entry `setpoint_type`. -/
def shouldActivateStep (setpoint : Nat) (now : Int) (m : ModeBase) (setpoint_type : Nat) :
    ModeBase :=
  if setpoint_type = setpoint then m.activateSetpointType setpoint now
  else m.updateObject setpoint_type fun s => s.setActive false

/-- The should-activate callback that `addSetpointTypeImpl` installs for `setpoint`
(mode.cpp, 221-232), stopped after the first `steps` iterations of its loop. -/
def shouldActivateCallbackSteps (m : ModeBase) (setpoint : Nat) (now : Int) (steps : Nat) :
    ModeBase :=
  (m._setpoint_types.take steps).foldl (shouldActivateStep setpoint now) m

/-- The should-activate callback that `addSetpointTypeImpl` installs for `setpoint`
(mode.cpp, 221-232), run to completion. -/
def shouldActivateCallback (m : ModeBase) (setpoint : Nat) (now : Int) : ModeBase :=
  m._setpoint_types.foldl (shouldActivateStep setpoint now) m

/-- `ModeBase::addSetpointTypeImpl` (mode.cpp, 216-234). -/
def addSetpointTypeImpl (m : ModeBase) (setpoint : Nat) : ModeBase :=
  let m1 := { m with _setpoint_types := m._setpoint_types ++ [setpoint] }
  let m2 := m1.updateObject setpoint fun s => s.setShouldActivateCallback setpoint
  m2.updateModeRequirementsFromSetpoints

/-- `ModeBase::createManualControlInput` (mode.cpp, 206-214); the returned
`ManualControlInput` object holds no state of the mode. -/
def createManualControlInput (m : ModeBase) (is_optional : Bool) : ModeBase :=
  if !is_optional then
    { m with _require_manual_control_input := true }.updateModeRequirementsFromSetpoints
  else m

/-- The loop of `setSetpointUpdateRateFromSetpointTypes` (mode.cpp, 265-270). -/
def maxUpdateRate (m : ModeBase) : ℚ :=
  m._setpoint_types.foldl
    (fun max_update_rate setpoint_type =>
      if (m._heap setpoint_type).desiredUpdateRateHz > max_update_rate then
        (m._heap setpoint_type).desiredUpdateRateHz
      else max_update_rate)
    (-1)

/-- `ModeBase::setSetpointUpdateRateFromSetpointTypes` (mode.cpp, 262-274). -/
def setSetpointUpdateRateFromSetpointTypes (m : ModeBase) : ModeBase :=
  let max_update_rate := m.maxUpdateRate
  if max_update_rate > 0 then m.setSetpointUpdateRate max_update_rate else m

/-- `ModeBase::onRegistered` (mode.cpp, 186-204). -/
def onRegistered (m : ModeBase) (now : Int) : Bool × ModeBase :=
  let m1 := m.emit (.configOverridesSetup SOURCE_TYPE_MODE m._registration.modeId)
  match m1._setpoint_types with
  | [] => (false, m1)
  | first :: _ =>
    let m2 := m1.activateSetpointType first now
    let m3 := m2.setSetpointUpdateRateFromSetpointTypes
    (true, m3)

/-- `ModeBase::doRegister` (mode.cpp, 54-73). The two external collaborators are
arguments: `compatible` is the result of `messageCompatibilityCheck`, and `authority` is
the answer of `Registration::doRegister` to the settings it is sent, the assigned mode
identity or `none` for a failure. -/
def doRegister (m : ModeBase) (now : Int) (compatible : Bool)
    (authority : RegistrationSettings → Option ModeID) : Bool × ModeBase :=
  if !compatible then (false, m)
  else
    let m1 := m.emit .overrideRegistration
    let settings := m1.getRegistrationSettings
    let m2 := m1.emit (.registrationDoRegister settings)
    match authority settings with
    | none => (false, m2)
    | some mode_id =>
      let m3 := { m2 with _registration := { _registered := true, _mode_id := mode_id } }
      let (ok, m4) := m3.onRegistered now
      if !ok then (false, m4) else (true, m4)

end ModeBase

/-! ## Health and arming check reporter -/

/-- Modelled from the spec: the message `px4_msgs::msg::Event` (`events::EventType`, not in
the sources), `Event{id, severity-pair, argument payload}`; the payload is a byte array. -/
structure EventType where
  id : Nat := 0
  log_levels : Nat := 0
  arguments : List Nat := []
deriving DecidableEq, Repr

/-- Modelled from the spec: the message `px4_msgs::msg::ArmingCheckReply` (not in the
sources), "a bounded sequence (fixed capacity)" of events "plus a single
(component-index, present, warning, error) health tuple and an overall can_arm_and_run
boolean". `events` is the fixed-size array, its length is the capacity `events.size()`;
`num_events` counts the entries in use and never exceeds the capacity. -/
structure ArmingCheckReply where
  events : List EventType := []
  num_events : Nat := 0
  can_arm_and_run : Bool := false
  health_component_index : Nat := 0
  health_component_is_present : Bool := false
  health_component_warning : Bool := false
  health_component_error : Bool := false
deriving DecidableEq, Repr

/-- Modelled from the spec: the struct `events::LogLevels` of `events.hpp` (not in the
sources), the "severity-pair" of an event, each level by its numeric value. -/
structure LogLevels where
  external : Nat
  internal : Nat
deriving DecidableEq, Repr

/-- Modelled from the spec: the conversion of one `events::Log` level to `events::LogLevels`
(`events.hpp`, not in the sources): the level is both the external and the internal one. -/
def LogLevels.ofLog (log_level : Nat) : LogLevels :=
  { external := log_level, internal := log_level }

/-- Modelled from the spec: `events::util::fillEventArguments` of `events.hpp` (not in the
sources) writes the encoded arguments to the front of the payload array. -/
def fillEventArguments (arguments : List Nat) (encoded : List Nat) : List Nat :=
  encoded ++ arguments.drop encoded.length

/-- A `HealthAndArmingCheckReporter`: the reply it is bound to, and what it printed. -/
structure HealthAndArmingCheckReporter where
  _arming_check_reply : ArmingCheckReply
  _stdout : List String := []
deriving DecidableEq, Repr

namespace HealthAndArmingCheckReporter

/-- The assignments of `addEvent` to the array entry `e` (health_and_arming_checks.hpp,
86-93); `args` is the encoded argument pack. -/
def fillEvent (e : EventType) (event_id : Nat) (log_levels : LogLevels) (args : List Nat) :
    EventType :=
  let e1 := { e with
    log_levels := (((log_levels.internal % 256) <<< 4) ||| (log_levels.external % 256)) % 256 }
  let e2 := { e1 with id := event_id }
  { e2 with arguments := fillEventArguments e2.arguments args }

/-- `HealthAndArmingCheckReporter::addEvent` (health_and_arming_checks.hpp, 77-96);
`args` is the encoded argument pack. -/
def addEvent (r : HealthAndArmingCheckReporter) (event_id : Nat) (log_levels : LogLevels)
    (args : List Nat) : Bool × HealthAndArmingCheckReporter :=
  let reply := r._arming_check_reply
  if reply.num_events ≥ reply.events.length then (false, r)
  else
    let e := fillEvent (reply.events.getD reply.num_events {}) event_id log_levels args
    (true, { r with _arming_check_reply :=
      { reply with events := reply.events.set reply.num_events e,
                   num_events := reply.num_events + 1 } })

/-- `HealthAndArmingCheckReporter::armingCheckFailureExt`
(health_and_arming_checks.hpp, 47-63); `args` is the encoded argument pack, which the
function sends after `navigation_mode_groups` (two bytes) and `health_component_index`
(one byte), both zero. -/
def armingCheckFailureExt (r : HealthAndArmingCheckReporter) (event_id : Nat)
    (log_level : Nat) (args : List Nat) : HealthAndArmingCheckReporter :=
  let r1 := { r with _arming_check_reply :=
    { r._arming_check_reply with can_arm_and_run := false } }
  let (added, r2) := r1.addEvent event_id (LogLevels.ofLog log_level) (0 :: 0 :: 0 :: args)
  if !added then { r2 with _stdout := r2._stdout ++ ["Error: too many events\n"] }
  else r2

/-- `HealthAndArmingCheckReporter::setHealth` (health_and_arming_checks.hpp, 99-107). -/
def setHealth (r : HealthAndArmingCheckReporter) (health_component_index : Nat)
    (is_present warning error : Bool) : HealthAndArmingCheckReporter :=
  { r with _arming_check_reply :=
    { r._arming_check_reply with
      health_component_index := health_component_index,
      health_component_is_present := is_present,
      health_component_warning := warning,
      health_component_error := error } }

end HealthAndArmingCheckReporter

/-- One report of a check callback: the arguments of one `armingCheckFailureExt` call. -/
structure FailureReport where
  event_id : Nat
  log_level : Nat
  args : List Nat
deriving DecidableEq, Repr

/-- The event that `armingCheckFailureExt` stores for a report in the array entry `e`. -/
def FailureReport.store (e : EventType) (report : FailureReport) : EventType :=
  HealthAndArmingCheckReporter.fillEvent e report.event_id (LogLevels.ofLog report.log_level)
    (0 :: 0 :: 0 :: report.args)

/-- A check callback that reports the given failures, in order. -/
def HealthAndArmingCheckReporter.reportAll (r : HealthAndArmingCheckReporter)
    (reports : List FailureReport) : HealthAndArmingCheckReporter :=
  reports.foldl (fun r report => r.armingCheckFailureExt report.event_id report.log_level
    report.args) r

/-! ## Sequences of calls -/

/-- A call of the authority or of the derived mode into a registered `ModeBase`. -/
inductive Call where
  | vehicleStatusUpdated (now : Int) (msg : VehicleStatus) (do_not_activate : Bool)
  | completed (now : Int) (result : Result)
deriving DecidableEq, Repr

namespace ModeBase

/-- Perform one call. -/
def call (m : ModeBase) : Call → ModeBase
  | .vehicleStatusUpdated now msg do_not_activate =>
    m.vehicleStatusUpdated now msg do_not_activate
  | .completed now result => m.completed now result

/-- Perform a sequence of calls, first to last. -/
def calls (m : ModeBase) (cs : List Call) : ModeBase := cs.foldl call m

/-- Process a sequence of vehicle-status updates, none with `do_not_activate`; each update
comes with the clock reading at its delivery. -/
def statusUpdates (m : ModeBase) (updates : List (Int × VehicleStatus)) : ModeBase :=
  updates.foldl (fun s u => s.vehicleStatusUpdated u.1 u.2 false) m

/-- What the mode did to the outside world since the trace had length `start`. -/
def effectsSince (m : ModeBase) (start : Nat) : List Effect := m._trace.drop start

/-- The effects of `updateSetpointUpdateTimer`: at most one, on the timer. -/
def timerEffects (m : ModeBase) : List Effect :=
  if m._is_active && decide (m._setpoint_update_rate_hz > FLT_EPSILON) then
    if m._setpoint_update_timer.isNone then
      [.createWallTimer (timerPeriodMs m._setpoint_update_rate_hz)] else []
  else if m._setpoint_update_timer.isSome then [.resetTimer] else []

/-- The number of registered setpoint types (registry entries) flagged active. -/
def activeCount (m : ModeBase) : Nat :=
  m._setpoint_types.countP fun p => (m._heap p)._active

end ModeBase

/-- Whether an effect is the publication of a completion notification. -/
def Effect.isModeCompleted : Effect → Bool
  | .publishModeCompleted _ => true
  | _ => false

/-- Whether an effect is a setpoint computation. -/
def Effect.isUpdateSetpoint : Effect → Bool
  | .updateSetpoint _ => true
  | _ => false

/-- One step of the count of completion notifications in the current activation cycle:
an activation starts a new cycle. -/
def cycleStep (n : Nat) : Effect → Nat
  | .onActivate => 0
  | .publishModeCompleted _ => n + 1
  | _ => n

/-- The number of completion notifications published since the last activation. -/
def completionsInCycle (es : List Effect) : Nat := es.foldl cycleStep 0

/-- An effect that is neither an activation nor a completion notification. -/
def Effect.isNeutral : Effect → Bool
  | .onActivate => false
  | .publishModeCompleted _ => false
  | _ => true

/-- The invariant of the completion flag: no prefix of the effects has more than one
completion notification in its last cycle, and an unset flag means none yet. -/
def CycleInv (es : List Effect) (completed : Bool) : Prop :=
  (∀ p, p <+: es → completionsInCycle p ≤ 1) ∧
    (completed = false → completionsInCycle es = 0)

/-- The mode "Orbit" of the scenario: registered with id 5, two setpoint types, a
rates-only one at address 0 with 10 Hz and a position and velocity one at address 1 with
5 Hz, and the update rate 10 Hz. -/
def orbitMode : ModeBase :=
  { _registration := { _registered := true, _mode_id := 5 },
    _setpoint_update_rate_hz := 10,
    _setpoint_types := [0, 1],
    _heap := fun p =>
      if p = 0 then { configuration := { rates_enabled := true }, desired_update_rate_hz := 10,
                      _active := true }
      else if p = 1 then
        { configuration := { position_enabled := true, velocity_enabled := true },
          desired_update_rate_hz := 5 }
      else {} }

/-- A run of the mode "Orbit": activated, completed twice, deactivated, activated again and
completed once more. -/
def orbitCalls : List Call :=
  [.vehicleStatusUpdated 1000 ⟨ARMING_STATE_ARMED, 5⟩ false, .completed 2000 0,
   .completed 3000 0, .vehicleStatusUpdated 4000 ⟨ARMING_STATE_ARMED, 4⟩ false,
   .vehicleStatusUpdated 5000 ⟨ARMING_STATE_ARMED, 5⟩ false, .completed 6000 1]

/-- The mode "Orbit" after its second setpoint type asked to be activated, at time 0. -/
def orbitModeSecondActive : ModeBase := orbitMode.shouldActivateCallback 1 0

/-- A reply with no events, `can_arm_and_run` set, and an events array of two entries. -/
def capacityTwoReply : ArmingCheckReply :=
  { events := [{}, {}], num_events := 0, can_arm_and_run := true }

/-- Three failure reports. -/
def threeReports : List FailureReport := [⟨1, 3, []⟩, ⟨2, 4, [7]⟩, ⟨3, 3, [8, 9]⟩]

/-- An authority that accepts every registration and assigns the mode id 5. -/
def acceptingAuthority : RegistrationSettings → Option ModeID := fun _ => some 5

/-- The mode "Orbit" before its registration: two setpoint types added, nothing active, the
update rate not set. -/
def orbitModeUnregistered : ModeBase :=
  { _settings := { name := "Orbit" },
    _setpoint_types := [0, 1],
    _heap := fun p =>
      if p = 0 then { configuration := { rates_enabled := true }, desired_update_rate_hz := 10,
                      _should_activate_cb := some 0 }
      else if p = 1 then
        { configuration := { position_enabled := true, velocity_enabled := true },
          desired_update_rate_hz := 5, _should_activate_cb := some 1 }
      else {} }

/-- A mode to which no setpoint type has been added. -/
def emptyMode : ModeBase := { _settings := { name := "Empty" } }

/-- The mode "Orbit" with its periodic updates disabled by `setSetpointUpdateRate(0)`. -/
def orbitModeNoUpdates : ModeBase := orbitMode.setSetpointUpdateRate 0

/-- A mode before its registration with one setpoint type, of desired update rate 0, whose
update rate was set to 50 Hz by `setSetpointUpdateRate(50)`. -/
def hoverModeUnregistered : ModeBase :=
  (({ _settings := { name := "Hover" } } : ModeBase).addSetpointTypeImpl 0).setSetpointUpdateRate
    50

/-- The timer invariant: a periodic setpoint timer exists iff the mode is active and the
update rate is above `FLT_EPSILON`. -/
def ModeBase.timerInvariant (m : ModeBase) : Bool :=
  m._setpoint_update_timer.isSome ==
    (m._is_active && decide (m._setpoint_update_rate_hz > FLT_EPSILON))

/-- The mode "Orbit" registered with an accepting authority and then activated by the
status "armed, nav state 5". -/
def orbitModeActivated : ModeBase :=
  (orbitModeUnregistered.doRegister 0 true acceptingAuthority).2.vehicleStatusUpdated 1000
    ⟨ARMING_STATE_ARMED, 5⟩ false

/-- Whether an effect is an invocation of the activation hook. -/
def Effect.isActivate : Effect → Bool
  | .onActivate => true
  | _ => false

/-- Whether an effect is an invocation of the deactivation hook. -/
def Effect.isDeactivate : Effect → Bool
  | .onDeactivate => true
  | _ => false

/-- Whether an effect is an invocation of the activation or of the deactivation hook. -/
def Effect.isHook (e : Effect) : Bool := e.isActivate || e.isDeactivate

/-- The strictly alternating sequence of `n` hook invocations that starts with an
activation. -/
def alternatingHooks (n : Nat) : List Effect :=
  (List.range n).map fun i => if i % 2 = 0 then Effect.onActivate else Effect.onDeactivate

/-- The invariant of the hooks: the hook invocations among the effects alternate, starting
with an activation, the last one is an activation iff the mode is active, and the
activations are as many as the deactivations, plus one if the mode is active. -/
def HookInv (es : List Effect) (active : Bool) : Prop :=
  es.filter Effect.isHook = alternatingHooks (es.filter Effect.isHook).length ∧
    decide ((es.filter Effect.isHook).length % 2 = 1) = active ∧
    es.countP Effect.isActivate =
      es.countP Effect.isDeactivate + if active then 1 else 0

/-- Status updates for the mode "Orbit": a suppressed activation, an activation, a
deactivation and an activation. -/
def orbitStatusCalls : List Call :=
  [.vehicleStatusUpdated 1000 ⟨ARMING_STATE_ARMED, 5⟩ true,
   .vehicleStatusUpdated 2000 ⟨ARMING_STATE_ARMED, 5⟩ false,
   .vehicleStatusUpdated 3000 ⟨ARMING_STATE_ARMED, 4⟩ false,
   .vehicleStatusUpdated 4000 ⟨ARMING_STATE_ARMED, 5⟩ false]

/-- The requirements record stored in the health-and-arming checks of the mode. -/
def ModeBase.storedRequirements (m : ModeBase) : ModeRequirements :=
  m._health_and_arming_checks.modeRequirements

/-- The arguments of one `setHealth` call. -/
structure HealthCall where
  health_component_index : Nat
  is_present : Bool
  warning : Bool
  error : Bool
deriving DecidableEq, Repr

/-- A check callback that makes the given `setHealth` calls, in order. -/
def HealthAndArmingCheckReporter.setHealthAll (r : HealthAndArmingCheckReporter)
    (calls : List HealthCall) : HealthAndArmingCheckReporter :=
  calls.foldl
    (fun r c => r.setHealth c.health_component_index c.is_present c.warning c.error) r

/-- A call that sets a mode up before its registration. `addSetpointType` of `mode.hpp` (not
in the sources) hands the setpoint type to `addSetpointTypeImpl`. -/
inductive SetupCall where
  | addSetpointType (setpoint : Nat)
  | createManualControlInput (is_optional : Bool)
deriving DecidableEq, Repr

/-- Whether a setup call is a `createManualControlInput` call with `is_optional = false`. -/
def SetupCall.requiresManualControl : SetupCall → Bool
  | .createManualControlInput is_optional => !is_optional
  | _ => false

/-- The setpoint types that a sequence of setup calls adds, in order. -/
def SetupCall.added (cs : List SetupCall) : List Nat :=
  cs.filterMap fun c =>
    match c with
    | .addSetpointType setpoint => some setpoint
    | _ => none

/-- Perform one setup call. -/
def ModeBase.setup (m : ModeBase) : SetupCall → ModeBase
  | .addSetpointType setpoint => m.addSetpointTypeImpl setpoint
  | .createManualControlInput is_optional => m.createManualControlInput is_optional

/-- Perform a sequence of setup calls, first to last. -/
def ModeBase.setups (m : ModeBase) (cs : List SetupCall) : ModeBase :=
  cs.foldl ModeBase.setup m

/-- A newly constructed mode "Orbit" with the setpoint objects of `orbitModeUnregistered`,
none of them added yet. -/
def orbitModeNew : ModeBase :=
  { _settings := { name := "Orbit" }, _heap := orbitModeUnregistered._heap }

/-- The invariant of the setup: the stored requirements record is the aggregate of the
configurations of the registered setpoint types and of the manual-control flag. -/
def ModeBase.StoredInv (m : ModeBase) : Prop :=
  m.storedRequirements =
    ModeBase.modeRequirementsFromSetpoints m.configurations m._require_manual_control_input

/-- The mode after the derived mode has put `requirements` into the health-and-arming
checks, by `setModeRequirements(requirements)` or by an assignment through the reference
that `modeRequirements()` returns (health_and_arming_checks.hpp, 127-132). -/
def ModeBase.withStoredRequirements (m : ModeBase) (requirements : ModeRequirements) :
    ModeBase :=
  { m with _health_and_arming_checks :=
      m._health_and_arming_checks.setModeRequirements requirements }

/-- A requirements record as a mode can set it by hand, with every flag that the setpoint
types do not determine. -/
def handSetRequirements : ModeRequirements :=
  { global_position := true, mission := true, home_position := true, prevent_arming := true }

namespace ModeBase

/-! ## Frame lemmas of the mode state machine -/

@[simp] theorem updateSetpointUpdateTimer_is_active (m : ModeBase) :
    m.updateSetpointUpdateTimer._is_active = m._is_active := by
  unfold updateSetpointUpdateTimer; dsimp only [emit]; split_ifs <;> rfl

@[simp] theorem updateSetpointUpdateTimer_completed (m : ModeBase) :
    m.updateSetpointUpdateTimer._completed = m._completed := by
  unfold updateSetpointUpdateTimer; dsimp only [emit]; split_ifs <;> rfl

@[simp] theorem updateSetpointUpdateTimer_registration (m : ModeBase) :
    m.updateSetpointUpdateTimer._registration = m._registration := by
  unfold updateSetpointUpdateTimer; dsimp only [emit]; split_ifs <;> rfl

@[simp] theorem updateSetpointUpdateTimer_settings (m : ModeBase) :
    m.updateSetpointUpdateTimer._settings = m._settings := by
  unfold updateSetpointUpdateTimer; dsimp only [emit]; split_ifs <;> rfl

@[simp] theorem updateSetpointUpdateTimer_rate (m : ModeBase) :
    m.updateSetpointUpdateTimer._setpoint_update_rate_hz = m._setpoint_update_rate_hz := by
  unfold updateSetpointUpdateTimer; dsimp only [emit]; split_ifs <;> rfl

theorem updateSetpointUpdateTimer_trace (m : ModeBase) :
    m.updateSetpointUpdateTimer._trace = m._trace ++ m.timerEffects := by
  unfold updateSetpointUpdateTimer timerEffects; dsimp only [emit]; split_ifs <;> simp

@[simp] theorem callOnActivate_is_active (m : ModeBase) (now : Int) :
    (m.callOnActivate now)._is_active = true := by
  unfold callOnActivate; dsimp only [emit]
  simp only [updateSetpointUpdateTimer_is_active]; split_ifs <;> rfl

@[simp] theorem callOnActivate_completed (m : ModeBase) (now : Int) :
    (m.callOnActivate now)._completed = false := by
  unfold callOnActivate; dsimp only [emit]
  simp only [updateSetpointUpdateTimer_completed]; split_ifs <;> rfl

@[simp] theorem callOnActivate_registration (m : ModeBase) (now : Int) :
    (m.callOnActivate now)._registration = m._registration := by
  unfold callOnActivate; dsimp only [emit]; simp only [updateSetpointUpdateTimer_registration]
  split_ifs <;> rfl

@[simp] theorem callOnActivate_settings (m : ModeBase) (now : Int) :
    (m.callOnActivate now)._settings = m._settings := by
  unfold callOnActivate; dsimp only [emit]; simp only [updateSetpointUpdateTimer_settings]
  split_ifs <;> rfl

@[simp] theorem callOnDeactivate_is_active (m : ModeBase) :
    m.callOnDeactivate._is_active = false := by
  unfold callOnDeactivate; dsimp only [emit]; simp only [updateSetpointUpdateTimer_is_active]

@[simp] theorem callOnDeactivate_completed (m : ModeBase) :
    m.callOnDeactivate._completed = m._completed := by
  unfold callOnDeactivate; dsimp only [emit]; simp only [updateSetpointUpdateTimer_completed]

@[simp] theorem callOnDeactivate_registration (m : ModeBase) :
    m.callOnDeactivate._registration = m._registration := by
  unfold callOnDeactivate; dsimp only [emit]; simp only [updateSetpointUpdateTimer_registration]

@[simp] theorem callOnDeactivate_settings (m : ModeBase) :
    m.callOnDeactivate._settings = m._settings := by
  unfold callOnDeactivate; dsimp only [emit]; simp only [updateSetpointUpdateTimer_settings]

@[simp] theorem vehicleStatusUpdated_registration (m : ModeBase) (now : Int)
    (msg : VehicleStatus) (d : Bool) :
    (m.vehicleStatusUpdated now msg d)._registration = m._registration := by
  unfold vehicleStatusUpdated; dsimp only; split_ifs <;> simp

@[simp] theorem vehicleStatusUpdated_settings (m : ModeBase) (now : Int)
    (msg : VehicleStatus) (d : Bool) :
    (m.vehicleStatusUpdated now msg d)._settings = m._settings := by
  unfold vehicleStatusUpdated; dsimp only; split_ifs <;> simp

theorem vehicleStatusUpdated_is_active (m : ModeBase) (now : Int) (msg : VehicleStatus) :
    (m.vehicleStatusUpdated now msg false)._is_active =
      (decide (m.id = msg.nav_state) &&
        (decide (msg.arming_state = ARMING_STATE_ARMED) ||
          m._settings.activate_even_while_disarmed)) := by
  unfold vehicleStatusUpdated ModeBase.id
  dsimp only
  split_ifs with h1 h2 h3 <;> simp_all

theorem statusUpdates_frame (m : ModeBase) (updates : List (Int × VehicleStatus)) :
    (m.statusUpdates updates)._registration = m._registration ∧
      (m.statusUpdates updates)._settings = m._settings := by
  unfold statusUpdates
  induction updates generalizing m with
  | nil => exact ⟨rfl, rfl⟩
  | cons u us ih =>
    rw [List.foldl_cons]
    have h := ih (m.vehicleStatusUpdated u.1 u.2 false)
    simpa using h

end ModeBase

/-- C1: after a vehicle-status update processed with `do_not_activate = false`, at the end
of any sequence of such updates, the mode is active iff the nav state of that update is the
mode's id and the vehicle is armed or the mode activates even while disarmed. -/
theorem vehicleStatusUpdated_active_iff (m : ModeBase) (updates : List (Int × VehicleStatus))
    (now : Int) (msg : VehicleStatus) :
    ((m.statusUpdates updates).vehicleStatusUpdated now msg false)._is_active =
      (decide (m.id = msg.nav_state) &&
        (decide (msg.arming_state = ARMING_STATE_ARMED) ||
          m._settings.activate_even_while_disarmed)) := by
  rw [ModeBase.vehicleStatusUpdated_is_active]
  have h := ModeBase.statusUpdates_frame m updates
  simp only [ModeBase.id, h.1, h.2]

theorem foldl_cycleStep_neutral (es : List Effect) (n : Nat)
    (h : ∀ e ∈ es, e.isNeutral = true) : es.foldl cycleStep n = n := by
  induction es generalizing n with
  | nil => rfl
  | cons e es ih =>
    have he := h e (List.mem_cons_self _ _)
    have hes : ∀ x ∈ es, x.isNeutral = true := fun x hx => h x (List.mem_cons_of_mem _ hx)
    rw [List.foldl_cons, ih _ hes]
    cases e <;> simp_all [cycleStep, Effect.isNeutral]

theorem foldl_cycleStep_window (es : List Effect) (n : Nat)
    (h : ∀ e ∈ es, e ≠ Effect.onActivate) :
    es.foldl cycleStep n = n + es.countP Effect.isModeCompleted := by
  induction es generalizing n with
  | nil => rfl
  | cons e es ih =>
    have he := h e (List.mem_cons_self _ _)
    have hes : ∀ x ∈ es, x ≠ Effect.onActivate := fun x hx => h x (List.mem_cons_of_mem _ hx)
    rw [List.foldl_cons, ih _ hes]
    cases e <;> simp_all [cycleStep, Effect.isModeCompleted, List.countP_cons]
    omega

theorem prefix_append_cases {α : Type} {p l es : List α} (h : p <+: l ++ es) :
    p <+: l ∨ ∃ q, q <+: es ∧ p = l ++ q := by
  rcases List.prefix_or_prefix_of_prefix h (List.prefix_append l es) with h1 | h1
  · exact Or.inl h1
  · obtain ⟨q, rfl⟩ := h1
    exact Or.inr ⟨q, (List.prefix_append_right_inj l).1 h, rfl⟩

theorem CycleInv.neutral {es : List Effect} {c : Bool} (h : CycleInv es c) (new : List Effect)
    (hn : ∀ e ∈ new, e.isNeutral = true) : CycleInv (es ++ new) c := by
  have key : ∀ q, q <+: new → completionsInCycle (es ++ q) = completionsInCycle es := by
    intro q hq
    unfold completionsInCycle
    rw [List.foldl_append]
    exact foldl_cycleStep_neutral _ _ fun e he => hn e (hq.mem he)
  refine ⟨fun p hp => ?_, fun hc => ?_⟩
  · rcases prefix_append_cases hp with h1 | ⟨q, hq, rfl⟩
    · exact h.1 p h1
    · rw [key q hq]; exact h.1 es (List.prefix_refl es)
  · rw [key new (List.prefix_refl new)]; exact h.2 hc

theorem CycleInv.activation {es : List Effect} {c : Bool} (h : CycleInv es c)
    (new : List Effect) (hn : ∀ e ∈ new, e.isNeutral = true) :
    CycleInv (es ++ Effect.onActivate :: new) false := by
  have key : ∀ q, q <+: new →
      completionsInCycle (es ++ Effect.onActivate :: q) = 0 := by
    intro q hq
    unfold completionsInCycle
    rw [List.foldl_append, List.foldl_cons]
    exact foldl_cycleStep_neutral _ _ fun e he => hn e (hq.mem he)
  refine ⟨fun p hp => ?_, fun _ => key new (List.prefix_refl new)⟩
  rcases prefix_append_cases hp with h1 | ⟨q, hq, rfl⟩
  · exact h.1 p h1
  · rcases List.prefix_cons_iff.1 hq with rfl | ⟨t, rfl, ht⟩
    · simpa using h.1 es (List.prefix_refl es)
    · rw [key t ht]; exact Nat.zero_le 1

theorem CycleInv.completion {es : List Effect} (h : CycleInv es false) (msg : ModeCompleted) :
    CycleInv (es ++ [Effect.publishModeCompleted msg]) true := by
  have key : completionsInCycle (es ++ [Effect.publishModeCompleted msg]) = 1 := by
    have h0 := h.2 rfl
    unfold completionsInCycle at h0 ⊢
    rw [List.foldl_append, h0]
    rfl
  refine ⟨fun p hp => ?_, fun hc => by cases hc⟩
  rcases List.prefix_concat_iff.1 hp with rfl | h1
  · rw [key]
  · exact h.1 p h1

theorem CycleInv.window {es : List Effect} {c : Bool} (h : CycleInv es c)
    (pre mid post : List Effect) (hsplit : es = pre ++ mid ++ post)
    (hmid : ∀ e ∈ mid, e ≠ Effect.onActivate) : mid.countP Effect.isModeCompleted ≤ 1 := by
  have h1 := h.1 (pre ++ mid) (hsplit ▸ List.prefix_append (pre ++ mid) post)
  unfold completionsInCycle at h1
  rw [List.foldl_append, foldl_cycleStep_window mid _ hmid] at h1
  omega

namespace ModeBase

theorem callOnActivate_trace (m : ModeBase) (now : Int) :
    (m.callOnActivate now)._trace = m._trace ++
      if m._setpoint_update_rate_hz > FLT_EPSILON then
        [Effect.onActivate,
            Effect.updateSetpoint (float32Div 1 m._setpoint_update_rate_hz)] ++
          if m._setpoint_update_timer.isNone then
            [Effect.createWallTimer (timerPeriodMs m._setpoint_update_rate_hz)]
          else []
      else
        [Effect.onActivate] ++
          if m._setpoint_update_timer.isSome then [Effect.resetTimer] else [] := by
  unfold callOnActivate
  dsimp only
  rw [updateSetpointUpdateTimer_trace]
  unfold timerEffects
  dsimp only [emit]
  by_cases hr : m._setpoint_update_rate_hz > FLT_EPSILON
  · cases ht : m._setpoint_update_timer <;> simp [hr, ht]
  · cases ht : m._setpoint_update_timer <;> simp [hr, ht]

theorem callOnDeactivate_trace (m : ModeBase) :
    m.callOnDeactivate._trace = m._trace ++
      Effect.onDeactivate ::
        if m._setpoint_update_timer.isSome then [Effect.resetTimer] else [] := by
  unfold callOnDeactivate
  dsimp only
  rw [updateSetpointUpdateTimer_trace]
  unfold timerEffects
  dsimp only [emit]
  split_ifs <;> simp_all

theorem callOnActivate_effects (m : ModeBase) (now : Int) :
    ∃ new, (m.callOnActivate now)._trace = m._trace ++ Effect.onActivate :: new ∧
      ∀ e ∈ new, e.isNeutral = true := by
  rw [callOnActivate_trace]
  split_ifs <;> simp [Effect.isNeutral]

theorem callOnDeactivate_effects (m : ModeBase) :
    ∃ new, m.callOnDeactivate._trace = m._trace ++ new ∧ ∀ e ∈ new, e.isNeutral = true := by
  rw [callOnDeactivate_trace]
  split_ifs <;> simp [Effect.isNeutral]

/-- Every call keeps the invariant of the completion flag. -/
theorem call_cycleInv (m : ModeBase) (c : Call) (es : List Effect) (start : List Effect)
    (htrace : m._trace = start ++ es) (h : CycleInv es m._completed) :
    ∃ es', (m.call c)._trace = start ++ es' ∧ CycleInv es' (m.call c)._completed := by
  cases c with
  | vehicleStatusUpdated now msg d =>
    unfold call vehicleStatusUpdated
    dsimp only
    split_ifs
    · obtain ⟨new, hnew, hneutral⟩ := callOnActivate_effects
        { m with _is_armed := decide (msg.arming_state = ARMING_STATE_ARMED) } now
      refine ⟨es ++ Effect.onActivate :: new, ?_, ?_⟩
      · rw [hnew]; dsimp only; rw [htrace, List.append_assoc]
      · rw [callOnActivate_completed]; exact h.activation new hneutral
    · exact ⟨es, htrace, h⟩
    · obtain ⟨new, hnew, hneutral⟩ := callOnDeactivate_effects
        { m with _is_armed := decide (msg.arming_state = ARMING_STATE_ARMED) }
      refine ⟨es ++ new, ?_, ?_⟩
      · rw [hnew]; dsimp only; rw [htrace, List.append_assoc]
      · rw [callOnDeactivate_completed]; exact h.neutral new hneutral
    · exact ⟨es, htrace, h⟩
  | completed now result =>
    unfold call completed
    dsimp only [emit]
    split_ifs with hc
    · exact ⟨es, htrace, h⟩
    · refine ⟨es ++ [Effect.publishModeCompleted
        ⟨m.id % 256, result % 256, timestampOf now⟩], ?_, ?_⟩
      · dsimp only; rw [htrace, List.append_assoc]
      · dsimp only
        have hc' : m._completed = false := by simpa using hc
        rw [hc'] at h
        exact h.completion _

theorem calls_cycleInv (m : ModeBase) (cs : List Call) :
    ∃ es, (m.calls cs)._trace = m._trace ++ es ∧ CycleInv es (m.calls cs)._completed := by
  induction cs using List.reverseRecOn with
  | nil =>
    refine ⟨[], by simp [calls], ?_⟩
    exact ⟨fun p hp => by simp [List.prefix_nil.1 hp, completionsInCycle], fun _ => rfl⟩
  | append_singleton cs c ih =>
    obtain ⟨es, htrace, hinv⟩ := ih
    have h := call_cycleInv (m.calls cs) c es m._trace htrace hinv
    simpa [calls, List.foldl_append] using h

end ModeBase

/-- C2: in what a mode does during any sequence of vehicle-status updates and `completed`
calls, a stretch without an activation holds at most one completion notification; and from a
state with `_completed = false` the first of two `completed` calls in succession publishes
one notification, the second publishes nothing and changes no state. -/
theorem completed_once_per_activation (m : ModeBase) :
    (∀ (cs : List Call) (pre mid post : List Effect),
        (m.calls cs).effectsSince m._trace.length = pre ++ mid ++ post →
        (∀ e ∈ mid, e ≠ Effect.onActivate) →
        mid.countP Effect.isModeCompleted ≤ 1) ∧
      (m._completed = false → ∀ (now1 now2 : Int) (result1 result2 : Result),
        (m.completed now1 result1)._trace = m._trace ++
            [Effect.publishModeCompleted
              { nav_state := m.id % 256, result := result1 % 256,
                timestamp := ModeBase.timestampOf now1 }] ∧
          (m.completed now1 result1).completed now2 result2 = m.completed now1 result1) := by
  refine ⟨fun cs pre mid post hsplit hmid => ?_, fun hc now1 now2 result1 result2 => ?_⟩
  · obtain ⟨es, htrace, hinv⟩ := ModeBase.calls_cycleInv m cs
    have hes : (m.calls cs).effectsSince m._trace.length = es := by
      unfold ModeBase.effectsSince
      rw [htrace, List.drop_left]
    exact hinv.window pre mid post (hes ▸ hsplit) hmid
  · unfold ModeBase.completed
    simp [hc, ModeBase.emit]

/-- The claim C2 on the run `orbitCalls` of the mode "Orbit": the stretch between its two
activations has one completion notification. -/
theorem completed_once_per_activation_witness :
    (orbitMode.calls orbitCalls).effectsSince orbitMode._trace.length =
        [Effect.onActivate, Effect.updateSetpoint (13421773 / 134217728),
            Effect.createWallTimer 100] ++
          [Effect.publishModeCompleted ⟨5, 0, 2⟩, Effect.onDeactivate, Effect.resetTimer] ++
          [Effect.onActivate, Effect.updateSetpoint (13421773 / 134217728),
            Effect.createWallTimer 100, Effect.publishModeCompleted ⟨5, 1, 6⟩] ∧
      [Effect.publishModeCompleted ⟨5, 0, 2⟩, Effect.onDeactivate, Effect.resetTimer].countP
          Effect.isModeCompleted ≤ 1 ∧
      (orbitMode.completed 2000 0).completed 3000 0 = orbitMode.completed 2000 0 :=
  ⟨by decide!,
    (completed_once_per_activation orbitMode).1 orbitCalls
      [Effect.onActivate, Effect.updateSetpoint (13421773 / 134217728),
        Effect.createWallTimer 100]
      [Effect.publishModeCompleted ⟨5, 0, 2⟩, Effect.onDeactivate, Effect.resetTimer]
      [Effect.onActivate, Effect.updateSetpoint (13421773 / 134217728),
        Effect.createWallTimer 100, Effect.publishModeCompleted ⟨5, 1, 6⟩]
      (by decide!) (by decide),
    ((completed_once_per_activation orbitMode).2 rfl 2000 3000 0 0).2⟩

namespace ModeBase

/-! ## The should-activate callback -/

theorem shouldActivateStep_setpoint_types (B : Nat) (now : Int) (m : ModeBase) (q : Nat) :
    (shouldActivateStep B now m q)._setpoint_types = m._setpoint_types := by
  unfold shouldActivateStep activateSetpointType updateObject emit
  split_ifs <;> rfl

theorem shouldActivateStep_active (B : Nat) (now : Int) (m : ModeBase) (q p : Nat) :
    ((shouldActivateStep B now m q)._heap p)._active =
      if p = q then decide (p = B) else (m._heap p)._active := by
  unfold shouldActivateStep activateSetpointType updateObject emit SetpointBase.setActive
  by_cases hq : q = B
  · subst hq
    by_cases hp : p = q
    · subst hp; simp
    · simp [hp]
  · by_cases hp : p = q
    · subst hp; simp [hq]
    · simp [hq, hp]

theorem foldl_shouldActivateStep_setpoint_types (B : Nat) (now : Int) (l : List Nat)
    (m : ModeBase) :
    (l.foldl (shouldActivateStep B now) m)._setpoint_types = m._setpoint_types := by
  induction l generalizing m with
  | nil => rfl
  | cons q l ih => rw [List.foldl_cons, ih, shouldActivateStep_setpoint_types]

theorem foldl_shouldActivateStep_active (B : Nat) (now : Int) (l : List Nat) (m : ModeBase)
    (p : Nat) :
    ((l.foldl (shouldActivateStep B now) m)._heap p)._active =
      if p ∈ l then decide (p = B) else (m._heap p)._active := by
  induction l generalizing m with
  | nil => simp
  | cons q l ih =>
    rw [List.foldl_cons, ih, shouldActivateStep_active]
    by_cases hl : p ∈ l <;> by_cases hq : p = q <;> simp [hl, hq]

end ModeBase

theorem countP_eq_one_of_nodup {l : List Nat} (hnd : l.Nodup) (P : Nat → Bool) (x : Nat)
    (hx : x ∈ l) (h : ∀ p ∈ l, P p = decide (p = x)) : l.countP P = 1 := by
  have h1 : l.countP P = l.countP (fun p => p == x) :=
    List.countP_congr fun p hp => by simp [h p hp]
  rw [h1]
  exact List.count_eq_one_of_mem hnd hx

/-- C3: the should-activate callback that `addSetpointTypeImpl` installs for a registered
setpoint type `B`, run to completion from any assignment of the active flags, leaves `B`
active and every other registered type inactive; in a registry of distinct types exactly one
type is then active. -/
theorem shouldActivateCallback_exclusive (m : ModeBase) (B : Nat) (now : Int)
    (hB : B ∈ m._setpoint_types) (hnd : m._setpoint_types.Nodup) :
    ((m.addSetpointTypeImpl B)._heap B)._should_activate_cb = some B ∧
      (m.shouldActivateCallback B now)._setpoint_types = m._setpoint_types ∧
      (∀ p ∈ m._setpoint_types,
        ((m.shouldActivateCallback B now)._heap p)._active = decide (p = B)) ∧
      (m.shouldActivateCallback B now).activeCount = 1 := by
  have hact : ∀ p ∈ m._setpoint_types,
      ((m.shouldActivateCallback B now)._heap p)._active = decide (p = B) := by
    intro p hp
    unfold ModeBase.shouldActivateCallback
    rw [ModeBase.foldl_shouldActivateStep_active, if_pos hp]
  have hreg : (m.shouldActivateCallback B now)._setpoint_types = m._setpoint_types :=
    ModeBase.foldl_shouldActivateStep_setpoint_types B now _ m
  refine ⟨?_, hreg, hact, ?_⟩
  · simp [ModeBase.addSetpointTypeImpl, ModeBase.updateModeRequirementsFromSetpoints,
      ModeBase.updateObject, SetpointBase.setShouldActivateCallback]
  · unfold ModeBase.activeCount
    rw [hreg]
    exact countP_eq_one_of_nodup hnd _ B hB hact

/-- The claim C3 on the mode "Orbit": after the callback of its second setpoint type, that
type is the one active type and the first type is inactive. -/
theorem shouldActivateCallback_exclusive_witness :
    1 ∈ orbitMode._setpoint_types ∧ orbitMode._setpoint_types.Nodup ∧
      ((orbitMode.shouldActivateCallback 1 0)._heap 0)._active = false ∧
      (orbitMode.shouldActivateCallback 1 0).activeCount = 1 := by
  have h := shouldActivateCallback_exclusive orbitMode 1 0 (by decide) (by decide)
  exact ⟨by decide, by decide, by simpa using h.2.2.1 0 (by decide), h.2.2.2⟩

theorem mem_take_iff_indexOf_lt {l : List Nat} {x : Nat} (hx : x ∈ l) (k : Nat) :
    x ∈ l.take k ↔ l.indexOf x < k := by
  induction l generalizing k with
  | nil => cases hx
  | cons a l ih =>
    cases k with
    | zero => simp
    | succ k =>
      by_cases hxa : x = a
      · subst hxa; simp
      · have hx' : x ∈ l := by
          rcases List.mem_cons.1 hx with h | h
          · exact absurd h hxa
          · exact h
        rw [List.take_succ_cons, List.mem_cons, List.indexOf_cons_ne _ (Ne.symm hxa)]
        simp [hxa, ih hx' k]

theorem countP_le_length_of_subset {l : List Nat} (hnd : l.Nodup) (P : Nat → Bool)
    (xs : List Nat) (h : ∀ p ∈ l, P p = true → p ∈ xs) : l.countP P ≤ xs.length := by
  rw [List.countP_eq_length_filter]
  refine (List.subperm_of_subset (hnd.filter _) ?_).length_le
  intro p hp
  rw [List.mem_filter] at hp
  exact h p hp.1 hp.2

namespace ModeBase

theorem shouldActivateCallbackSteps_setpoint_types (m : ModeBase) (B : Nat) (now : Int)
    (steps : Nat) :
    (m.shouldActivateCallbackSteps B now steps)._setpoint_types = m._setpoint_types :=
  foldl_shouldActivateStep_setpoint_types B now _ m

theorem shouldActivateCallbackSteps_active (m : ModeBase) (B : Nat) (now : Int) (steps p : Nat) :
    ((m.shouldActivateCallbackSteps B now steps)._heap p)._active =
      if p ∈ m._setpoint_types.take steps then decide (p = B) else (m._heap p)._active :=
  foldl_shouldActivateStep_active B now _ m p

end ModeBase

theorem countP_eq_two_of_nodup {l : List Nat} (hnd : l.Nodup) (P : Nat → Bool) (x y : Nat)
    (hx : x ∈ l) (hy : y ∈ l) (hxy : x ≠ y)
    (h : ∀ p ∈ l, P p = decide (p = x ∨ p = y)) : l.countP P = 2 := by
  rw [List.countP_eq_length_filter]
  have hperm : (l.filter P).Perm [x, y] := by
    rw [List.perm_ext_iff_of_nodup (hnd.filter _) (by simp [hxy])]
    intro p
    rw [List.mem_filter]
    constructor
    · rintro ⟨hp, hP⟩
      rw [h p hp] at hP
      simpa using hP
    · intro hp
      have hp' : p = x ∨ p = y := by simpa using hp
      have hpl : p ∈ l := by
        rcases hp' with rfl | rfl
        · exact hx
        · exact hy
      exact ⟨hpl, by rw [h p hpl]; simpa using hp'⟩
  rw [hperm.length_eq]
  rfl

/-- C9, as the code has it: in a registry of distinct types in which exactly the type `A` is
active, an activation request for the registered type `B` leaves at most one type flagged
active after each step of the callback's loop provided `B` does not come before `A` in the
registry. When `B` comes before `A`, exactly `B` and `A` are flagged active after each step
from the one that activates `B` to the one before the loop reaches `A`, and at most one type
is before and after these steps. Whatever the positions, at most two types are flagged
active after each step, and once the loop has gone through the registry `B` is the one
active type. -/
theorem shouldActivateCallbackSteps_activeCount (m : ModeBase) (A B : Nat) (now : Int)
    (hnd : m._setpoint_types.Nodup) (hA : A ∈ m._setpoint_types) (hB : B ∈ m._setpoint_types)
    (hone : ∀ p ∈ m._setpoint_types, (m._heap p)._active = decide (p = A)) :
    (m._setpoint_types.indexOf A ≤ m._setpoint_types.indexOf B →
        ∀ steps, (m.shouldActivateCallbackSteps B now steps).activeCount ≤ 1) ∧
      (m._setpoint_types.indexOf B < m._setpoint_types.indexOf A →
        ∀ steps, m._setpoint_types.indexOf B < steps →
          steps ≤ m._setpoint_types.indexOf A →
          ((m.shouldActivateCallbackSteps B now steps)._heap B)._active = true ∧
            ((m.shouldActivateCallbackSteps B now steps)._heap A)._active = true ∧
            (∀ p ∈ m._setpoint_types,
              ((m.shouldActivateCallbackSteps B now steps)._heap p)._active =
                decide (p = B ∨ p = A)) ∧
            (m.shouldActivateCallbackSteps B now steps).activeCount = 2) ∧
      (m._setpoint_types.indexOf B < m._setpoint_types.indexOf A →
        ∀ steps, steps ≤ m._setpoint_types.indexOf B ∨ m._setpoint_types.indexOf A < steps →
          (m.shouldActivateCallbackSteps B now steps).activeCount ≤ 1) ∧
      (∀ steps, (m.shouldActivateCallbackSteps B now steps).activeCount ≤ 2) ∧
      (∀ steps, m._setpoint_types.length ≤ steps →
        (∀ p ∈ m._setpoint_types,
          ((m.shouldActivateCallbackSteps B now steps)._heap p)._active = decide (p = B)) ∧
        (m.shouldActivateCallbackSteps B now steps).activeCount = 1) := by
  have hact : ∀ steps, ∀ p ∈ m._setpoint_types,
      ((m.shouldActivateCallbackSteps B now steps)._heap p)._active =
        if p ∈ m._setpoint_types.take steps then decide (p = B) else decide (p = A) := by
    intro steps p hp
    rw [ModeBase.shouldActivateCallbackSteps_active, hone p hp]
  have hle1 : ∀ steps,
      (B ∈ m._setpoint_types.take steps → A ∈ m._setpoint_types.take steps) →
      (m.shouldActivateCallbackSteps B now steps).activeCount ≤ 1 := by
    intro steps himp
    unfold ModeBase.activeCount
    rw [ModeBase.shouldActivateCallbackSteps_setpoint_types]
    by_cases hBk : B ∈ m._setpoint_types.take steps
    · have hAk := himp hBk
      refine countP_le_length_of_subset hnd _ [B] fun p hp hP => ?_
      rw [hact steps p hp] at hP
      by_cases hpk : p ∈ m._setpoint_types.take steps
      · simpa [hpk] using hP
      · rw [if_neg hpk] at hP
        have : p = A := by simpa using hP
        exact absurd (this ▸ hAk) hpk
    · refine countP_le_length_of_subset hnd _ [A] fun p hp hP => ?_
      rw [hact steps p hp] at hP
      by_cases hpk : p ∈ m._setpoint_types.take steps
      · rw [if_pos hpk] at hP
        have : p = B := by simpa using hP
        exact absurd (this ▸ hpk) hBk
      · simpa [hpk] using hP
  refine ⟨fun hpos steps => hle1 steps fun hBk => ?_, fun hpos steps h1 h2 => ?_,
    fun hpos steps h12 => hle1 steps fun hBk => ?_, fun steps => ?_, fun steps hsteps => ?_⟩
  · rw [mem_take_iff_indexOf_lt hA]
    exact lt_of_le_of_lt hpos ((mem_take_iff_indexOf_lt hB steps).1 hBk)
  · have hBk : B ∈ m._setpoint_types.take steps := (mem_take_iff_indexOf_lt hB steps).2 h1
    have hAk : A ∉ m._setpoint_types.take steps := fun h =>
      absurd ((mem_take_iff_indexOf_lt hA steps).1 h) (not_lt.2 h2)
    have hBA : B ≠ A := fun h => by rw [h] at hpos; exact lt_irrefl _ hpos
    have hboth : ∀ p ∈ m._setpoint_types,
        ((m.shouldActivateCallbackSteps B now steps)._heap p)._active =
          decide (p = B ∨ p = A) := by
      intro p hp
      rw [hact steps p hp]
      by_cases hpk : p ∈ m._setpoint_types.take steps
      · rw [if_pos hpk]
        have hpA : p ≠ A := fun h => hAk (h ▸ hpk)
        simp [hpA]
      · rw [if_neg hpk]
        have hpB : p ≠ B := fun h => hpk (h ▸ hBk)
        simp [hpB]
    refine ⟨by rw [hboth B hB]; simp, by rw [hboth A hA]; simp, hboth, ?_⟩
    unfold ModeBase.activeCount
    rw [ModeBase.shouldActivateCallbackSteps_setpoint_types]
    exact countP_eq_two_of_nodup hnd _ B A hB hA hBA hboth
  · rcases h12 with h | h
    · exact absurd ((mem_take_iff_indexOf_lt hB steps).1 hBk) (not_lt.2 h)
    · exact (mem_take_iff_indexOf_lt hA steps).2 h
  · unfold ModeBase.activeCount
    rw [ModeBase.shouldActivateCallbackSteps_setpoint_types]
    refine countP_le_length_of_subset hnd _ [A, B] fun p hp hP => ?_
    rw [hact steps p hp] at hP
    by_cases hpk : p ∈ m._setpoint_types.take steps
    · rw [if_pos hpk] at hP
      have : p = B := by simpa using hP
      simp [this]
    · rw [if_neg hpk] at hP
      have : p = A := by simpa using hP
      simp [this]
  · have hall : ∀ p ∈ m._setpoint_types,
        ((m.shouldActivateCallbackSteps B now steps)._heap p)._active = decide (p = B) := by
      intro p hp
      rw [hact steps p hp, List.take_of_length_le hsteps, if_pos hp]
    refine ⟨hall, ?_⟩
    unfold ModeBase.activeCount
    rw [ModeBase.shouldActivateCallbackSteps_setpoint_types]
    exact countP_eq_one_of_nodup hnd _ B hB hall

/-- C9 fails when `B` comes before the active type: in the mode "Orbit" with its second
type active, the request of the first type leaves both types flagged active after the first
step of the loop, the step at which the control-mode descriptor is published. -/
theorem shouldActivateCallbackSteps_two_active :
    orbitModeSecondActive._setpoint_types = [0, 1] ∧
      (orbitModeSecondActive._heap 0)._active = false ∧
      (orbitModeSecondActive._heap 1)._active = true ∧
      ((orbitModeSecondActive.shouldActivateCallbackSteps 0 0 1)._heap 0)._active = true ∧
      ((orbitModeSecondActive.shouldActivateCallbackSteps 0 0 1)._heap 1)._active = true ∧
      (orbitModeSecondActive.shouldActivateCallbackSteps 0 0 1).activeCount = 2 ∧
      ¬ (orbitModeSecondActive.shouldActivateCallbackSteps 0 0 1).activeCount ≤ 1 := by
  with_unfolding_all decide

/-- The amended claim C9 on the mode "Orbit". With its first type active, at most one type
is flagged active after each step of the request of the second type. With its second type
active, both types are flagged active after the first step of the request of the first type,
and the first type alone after the second step. -/
theorem shouldActivateCallbackSteps_activeCount_witness :
    orbitMode._setpoint_types.Nodup ∧ 0 ∈ orbitMode._setpoint_types ∧
      1 ∈ orbitMode._setpoint_types ∧
      orbitMode._setpoint_types.indexOf 0 ≤ orbitMode._setpoint_types.indexOf 1 ∧
      (∀ steps, (orbitMode.shouldActivateCallbackSteps 1 0 steps).activeCount ≤ 1) ∧
      (orbitMode.shouldActivateCallbackSteps 1 0 2).activeCount = 1 ∧
      orbitModeSecondActive._setpoint_types.indexOf 0 <
        orbitModeSecondActive._setpoint_types.indexOf 1 ∧
      (orbitModeSecondActive.shouldActivateCallbackSteps 0 0 1).activeCount = 2 ∧
      (orbitModeSecondActive.shouldActivateCallbackSteps 0 0 2).activeCount = 1 := by
  have h1 := shouldActivateCallbackSteps_activeCount orbitMode 0 1 0 (by decide) (by decide)
    (by decide) (by intro p hp; fin_cases hp <;> rfl)
  have h2 := shouldActivateCallbackSteps_activeCount orbitModeSecondActive 1 0 0
    (by with_unfolding_all decide) (by with_unfolding_all decide)
    (by with_unfolding_all decide)
    (by
      intro p hp
      have hp' : p ∈ [0, 1] := hp
      fin_cases hp' <;> with_unfolding_all decide)
  exact ⟨by decide, by decide, by decide, by decide, h1.1 (by decide),
    (h1.2.2.2.2 2 (by decide)).2, by with_unfolding_all decide,
    (h2.2.1 (by with_unfolding_all decide) 1 (by with_unfolding_all decide)
      (by with_unfolding_all decide)).2.2.2,
    (h2.2.2.2.2 2 (by with_unfolding_all decide)).2⟩

namespace ModeBase

/-! ## Requirements aggregation -/

theorem foldl_requirementsLoopBody (configs : List Configuration) (r : ModeRequirements) :
    configs.foldl requirementsLoopBody r =
      { r with
        angular_velocity := r.angular_velocity || configs.any fun c => c.rates_enabled
        attitude := r.attitude || configs.any fun c => c.attitude_enabled
        local_alt := r.local_alt ||
          configs.any fun c => c.altitude_enabled || c.climb_rate_enabled
        local_position := r.local_position ||
          configs.any fun c => c.velocity_enabled || c.position_enabled } := by
  induction configs generalizing r with
  | nil => simp
  | cons c cs ih =>
    rw [List.foldl_cons, ih]
    simp [requirementsLoopBody, Bool.or_assoc]

end ModeBase

/-- C4: without a required manual control input, the record that
`updateModeRequirementsFromSetpoints` computes from a list of setpoint configurations has
each of `angular_velocity`, `attitude`, `local_alt`, `local_position` set iff some
configuration enables a quantity that needs it, and every other flag false; for the empty
list every flag is false. -/
theorem modeRequirementsFromSetpoints_no_manual (configs : List Configuration) :
    ModeBase.modeRequirementsFromSetpoints configs false =
        { angular_velocity := configs.any fun c => c.rates_enabled
          attitude := configs.any fun c => c.attitude_enabled
          local_alt := configs.any fun c => c.altitude_enabled || c.climb_rate_enabled
          local_position := configs.any fun c => c.velocity_enabled || c.position_enabled
          local_position_relaxed := false
          global_position := false
          mission := false
          home_position := false
          prevent_arming := false
          manual_control := false } ∧
      ModeBase.modeRequirementsFromSetpoints [] false =
        { angular_velocity := false, attitude := false, local_alt := false,
          local_position := false, local_position_relaxed := false, global_position := false,
          mission := false, home_position := false, prevent_arming := false,
          manual_control := false } ∧
      ∀ m : ModeBase,
        m.updateModeRequirementsFromSetpoints._health_and_arming_checks.modeRequirements =
          ModeBase.modeRequirementsFromSetpoints m.configurations
            m._require_manual_control_input := by
  refine ⟨?_, rfl, fun m => rfl⟩
  unfold ModeBase.modeRequirementsFromSetpoints
  simp [ModeBase.foldl_requirementsLoopBody]

/-- C5: with a required manual control input, the computed record has `manual_control` set,
`local_position` clear and `local_position_relaxed` set iff some configuration enables
velocity or position control; every other flag is as without manual control. For the one
configuration that enables velocity control the record has `local_position_relaxed` and
`manual_control` set and `local_position` clear. -/
theorem modeRequirementsFromSetpoints_manual (configs : List Configuration) :
    ModeBase.modeRequirementsFromSetpoints configs true =
        { ModeBase.modeRequirementsFromSetpoints configs false with
          manual_control := true
          local_position := false
          local_position_relaxed :=
            configs.any fun c => c.velocity_enabled || c.position_enabled } ∧
      ModeBase.modeRequirementsFromSetpoints [{ velocity_enabled := true }] true =
        { local_position_relaxed := true, local_position := false, manual_control := true } := by
  refine ⟨?_, by decide⟩
  unfold ModeBase.modeRequirementsFromSetpoints
  simp only [ModeBase.foldl_requirementsLoopBody, if_true]
  cases h : (configs.any fun c => c.velocity_enabled || c.position_enabled) <;> simp [h]

namespace HealthAndArmingCheckReporter

/-! ## The check reporter -/

theorem armingCheckFailureExt_of_lt (r : HealthAndArmingCheckReporter) (report : FailureReport)
    (h : r._arming_check_reply.num_events < r._arming_check_reply.events.length) :
    (r.armingCheckFailureExt report.event_id report.log_level
          report.args)._arming_check_reply.num_events = r._arming_check_reply.num_events + 1 ∧
      (r.armingCheckFailureExt report.event_id report.log_level
          report.args)._arming_check_reply.events =
        r._arming_check_reply.events.set r._arming_check_reply.num_events
          (report.store
            (r._arming_check_reply.events.getD r._arming_check_reply.num_events {})) ∧
      (r.armingCheckFailureExt report.event_id report.log_level
          report.args)._arming_check_reply.can_arm_and_run = false ∧
      (r.armingCheckFailureExt report.event_id report.log_level report.args)._stdout =
        r._stdout := by
  unfold armingCheckFailureExt addEvent
  simp [Nat.not_le.2 h, FailureReport.store]

theorem armingCheckFailureExt_of_ge (r : HealthAndArmingCheckReporter) (report : FailureReport)
    (h : r._arming_check_reply.events.length ≤ r._arming_check_reply.num_events) :
    (r.armingCheckFailureExt report.event_id report.log_level
          report.args)._arming_check_reply.num_events = r._arming_check_reply.num_events ∧
      (r.armingCheckFailureExt report.event_id report.log_level
          report.args)._arming_check_reply.events = r._arming_check_reply.events ∧
      (r.armingCheckFailureExt report.event_id report.log_level
          report.args)._arming_check_reply.can_arm_and_run = false ∧
      (r.armingCheckFailureExt report.event_id report.log_level report.args)._stdout =
        r._stdout ++ ["Error: too many events\n"] := by
  unfold armingCheckFailureExt addEvent
  simp [h]

theorem take_set_zipWith_aux (pre post : List EventType) (x e : EventType)
    (reports : List FailureReport) (report : FailureReport) (he : e = report.store x) :
    ((pre ++ x :: post).set pre.length e).take (pre.length + 1) ++
        List.zipWith FailureReport.store (((pre ++ x :: post).set pre.length e).drop
          (pre.length + 1)) reports ++
        ((pre ++ x :: post).set pre.length e).drop (pre.length + 1 + reports.length) =
      (pre ++ x :: post).take pre.length ++
        List.zipWith FailureReport.store ((pre ++ x :: post).drop pre.length)
          (report :: reports) ++
        (pre ++ x :: post).drop (pre.length + (reports.length + 1)) := by
  have hset : (pre ++ x :: post).set pre.length e = pre ++ e :: post := by
    simp
  rw [hset]
  have h1 : (pre ++ e :: post).take (pre.length + 1) = pre ++ [e] := by
    rw [List.take_append]; simp
  have h2 : (pre ++ e :: post).drop (pre.length + 1) = post := by
    rw [List.drop_append]; simp
  have h3 : (pre ++ e :: post).drop (pre.length + 1 + reports.length) =
      post.drop reports.length := by
    rw [Nat.add_assoc, List.drop_append]; simp [Nat.add_comm]
  have h4 : (pre ++ x :: post).drop (pre.length + (reports.length + 1)) =
      post.drop reports.length := by
    rw [List.drop_append]; simp
  have h5 : (pre ++ x :: post).drop pre.length = x :: post := by simp
  have h6 : (pre ++ x :: post).take pre.length = pre := by simp
  rw [h1, h2, h3, h4, h5, h6, he]
  simp

theorem take_set_zipWith (events : List EventType) (k : Nat) (e : EventType)
    (reports : List FailureReport) (report : FailureReport) (hk : k < events.length)
    (he : e = report.store (events.getD k {})) :
    (events.set k e).take (k + 1) ++
        List.zipWith FailureReport.store ((events.set k e).drop (k + 1)) reports ++
        (events.set k e).drop (k + 1 + reports.length) =
      events.take k ++ List.zipWith FailureReport.store (events.drop k) (report :: reports) ++
        events.drop (k + (reports.length + 1)) := by
  have hsplit : events = events.take k ++ events[k] :: events.drop (k + 1) := by
    rw [← List.drop_eq_getElem_cons hk, List.take_append_drop]
  have hlen : (events.take k).length = k := by
    rw [List.length_take]; omega
  have hx : events.getD k {} = events[k] := List.getD_eq_getElem _ _ hk
  have := take_set_zipWith_aux (events.take k) (events.drop (k + 1)) events[k] e reports report
    (hx ▸ he)
  rw [← hsplit, hlen] at this
  exact this

theorem reportAll_from (reports : List FailureReport) (r : HealthAndArmingCheckReporter)
    (h : r._arming_check_reply.num_events ≤ r._arming_check_reply.events.length) :
    (r.reportAll reports)._arming_check_reply.num_events =
        min (r._arming_check_reply.num_events + reports.length)
          r._arming_check_reply.events.length ∧
      (r.reportAll reports)._arming_check_reply.events =
        r._arming_check_reply.events.take r._arming_check_reply.num_events ++
          List.zipWith FailureReport.store
            (r._arming_check_reply.events.drop r._arming_check_reply.num_events) reports ++
          r._arming_check_reply.events.drop
            (r._arming_check_reply.num_events + reports.length) ∧
      (r.reportAll reports)._arming_check_reply.can_arm_and_run =
        (decide (reports = []) && r._arming_check_reply.can_arm_and_run) ∧
      (r.reportAll reports)._stdout.length = r._stdout.length +
        (r._arming_check_reply.num_events + reports.length -
          r._arming_check_reply.events.length) := by
  induction reports generalizing r with
  | nil => simp [reportAll, Nat.min_eq_left h, Nat.sub_eq_zero_of_le h]
  | cons report reports ih =>
    have hcons : r.reportAll (report :: reports) =
        (r.armingCheckFailureExt report.event_id report.log_level report.args).reportAll
          reports := rfl
    rw [hcons]
    rcases Nat.lt_or_ge r._arming_check_reply.num_events r._arming_check_reply.events.length
      with hlt | hge
    · obtain ⟨e1, e2, e3, e4⟩ := armingCheckFailureExt_of_lt r report hlt
      have hle : (r.armingCheckFailureExt report.event_id report.log_level
          report.args)._arming_check_reply.num_events ≤
          (r.armingCheckFailureExt report.event_id report.log_level
            report.args)._arming_check_reply.events.length := by
        rw [e1, e2, List.length_set]; exact hlt
      obtain ⟨h1, h2, h3, h4⟩ := ih _ hle
      rw [e1, e2, List.length_set] at h1
      rw [e1, e2] at h2
      rw [e3] at h3
      rw [e1, e2, e4, List.length_set] at h4
      refine ⟨?_, ?_, ?_, ?_⟩
      · rw [h1, List.length_cons]; congr 1; omega
      · rw [h2]; exact take_set_zipWith _ _ _ reports report hlt rfl
      · rw [h3]; simp
      · rw [h4, List.length_cons]; congr 2; omega
    · obtain ⟨e1, e2, e3, e4⟩ := armingCheckFailureExt_of_ge r report hge
      have hle : (r.armingCheckFailureExt report.event_id report.log_level
          report.args)._arming_check_reply.num_events ≤
          (r.armingCheckFailureExt report.event_id report.log_level
            report.args)._arming_check_reply.events.length := by
        rw [e1, e2]; exact h
      obtain ⟨h1, h2, h3, h4⟩ := ih _ hle
      rw [e1, e2] at h1 h2
      rw [e3] at h3
      rw [e1, e2, e4] at h4
      have hk : r._arming_check_reply.num_events = r._arming_check_reply.events.length :=
        le_antisymm h hge
      refine ⟨?_, ?_, ?_, ?_⟩
      · rw [h1, List.length_cons]; omega
      · rw [h2, hk, List.drop_of_length_le (Nat.le_add_right _ _),
          List.drop_of_length_le (Nat.le_add_right _ _), List.drop_length]
        simp
      · rw [h3]; simp
      · rw [h4, List.length_append, List.length_cons, List.length_cons, List.length_nil]
        omega

end HealthAndArmingCheckReporter

/-- C6: after the reports of a check callback on a reply with no events and
`can_arm_and_run` set, whose events array has `capacity` entries, `num_events` is the
smaller of the number of reports and the capacity, the entries in use hold the first that
many reports in call order, the other entries are as before, a diagnostic was printed for
each dropped report, and `can_arm_and_run` is clear iff there was a report. -/
theorem reportAll_fresh (reply : ArmingCheckReply) (capacity : Nat)
    (reports : List FailureReport) (hcap : reply.events.length = capacity)
    (hnum : reply.num_events = 0) (hcan : reply.can_arm_and_run = true) :
    (HealthAndArmingCheckReporter.reportAll ⟨reply, []⟩
          reports)._arming_check_reply.num_events = min reports.length capacity ∧
      (HealthAndArmingCheckReporter.reportAll ⟨reply, []⟩
          reports)._arming_check_reply.events.length = capacity ∧
      (HealthAndArmingCheckReporter.reportAll ⟨reply, []⟩
          reports)._arming_check_reply.events.take (min reports.length capacity) =
        List.zipWith FailureReport.store reply.events
          (reports.take (min reports.length capacity)) ∧
      (HealthAndArmingCheckReporter.reportAll ⟨reply, []⟩
          reports)._arming_check_reply.events.drop (min reports.length capacity) =
        reply.events.drop (min reports.length capacity) ∧
      ((HealthAndArmingCheckReporter.reportAll ⟨reply, []⟩
          reports)._arming_check_reply.can_arm_and_run = false ↔ 1 ≤ reports.length) ∧
      (HealthAndArmingCheckReporter.reportAll ⟨reply, []⟩ reports)._stdout.length =
        reports.length - capacity := by
  obtain ⟨h1, h2, h3, h4⟩ :=
    HealthAndArmingCheckReporter.reportAll_from reports ⟨reply, []⟩ (by simp [hnum])
  simp only [hnum, hcap, hcan, Nat.zero_add, List.take_zero, List.drop_zero, List.nil_append,
    List.length_nil, Bool.and_true] at h1 h2 h3 h4
  refine ⟨h1, ?_, ?_, ?_, ?_, h4⟩
  · rw [h2, List.length_append, List.length_zipWith, List.length_drop, hcap]; omega
  · rw [h2]
    rcases Nat.le_total reports.length capacity with hle | hle
    · rw [Nat.min_eq_left hle, List.take_append_of_le_length
        (by rw [List.length_zipWith, hcap]; omega), List.take_length]
      exact List.take_of_length_le (by rw [List.length_zipWith, hcap]; omega)
    · have hd : reply.events.drop reports.length = [] :=
        List.drop_of_length_le (by omega)
      rw [Nat.min_eq_right hle, hd, List.append_nil, List.take_zipWith, ← hcap,
        List.take_length]
  · rw [h2]
    rcases Nat.le_total reports.length capacity with hle | hle
    · rw [Nat.min_eq_left hle]
      exact List.drop_left' (by rw [List.length_zipWith, hcap]; omega)
    · have hd : reply.events.drop reports.length = [] :=
        List.drop_of_length_le (by omega)
      have hc : reply.events.drop capacity = [] := List.drop_of_length_le (by omega)
      rw [Nat.min_eq_right hle, hd, List.append_nil, hc]
      exact List.drop_of_length_le (by rw [List.length_zipWith, hcap]; omega)
  · rw [h3]; cases reports <;> simp

/-- The capacity test of C6: three reports on a reply of capacity two leave two events, the
first two reports, and `can_arm_and_run` clear. -/
theorem reportAll_fresh_witness :
    capacityTwoReply.events.length = 2 ∧ capacityTwoReply.num_events = 0 ∧
      capacityTwoReply.can_arm_and_run = true ∧
      (HealthAndArmingCheckReporter.reportAll ⟨capacityTwoReply, []⟩
          threeReports)._arming_check_reply.num_events = 2 ∧
      (HealthAndArmingCheckReporter.reportAll ⟨capacityTwoReply, []⟩
          threeReports)._arming_check_reply.events.length = 2 ∧
      (HealthAndArmingCheckReporter.reportAll ⟨capacityTwoReply, []⟩
          threeReports)._arming_check_reply.events =
        [⟨1, 51, [0, 0, 0]⟩, ⟨2, 68, [0, 0, 0, 7]⟩] ∧
      (HealthAndArmingCheckReporter.reportAll ⟨capacityTwoReply, []⟩
          threeReports)._arming_check_reply.can_arm_and_run = false := by
  have h := reportAll_fresh capacityTwoReply 2 threeReports rfl rfl rfl
  exact ⟨rfl, rfl, rfl, h.1, h.2.1, by decide, h.2.2.2.2.1.2 (by decide)⟩

namespace ModeBase

/-! ## Registration -/

theorem onRegistered_fst (m : ModeBase) (now : Int) :
    (m.onRegistered now).1 = !m._setpoint_types.isEmpty := by
  unfold onRegistered
  dsimp only [emit]
  cases m._setpoint_types <;> rfl

end ModeBase

/-- C7: `doRegister` returns true iff the message compatibility check passes, the authority
registers the mode and at least one setpoint type has been added; when the compatibility
check fails it returns false without a step, so the authority is not asked; with no
setpoint type added it returns false. -/
theorem doRegister_result (m : ModeBase) (now : Int) (compatible : Bool)
    (authority : RegistrationSettings → Option ModeID) :
    (m.doRegister now compatible authority).1 =
        (compatible && (authority m.getRegistrationSettings).isSome &&
          !m._setpoint_types.isEmpty) ∧
      m.doRegister now false authority = (false, m) ∧
      (m._setpoint_types = [] → (m.doRegister now compatible authority).1 = false) := by
  have h1 : (m.doRegister now compatible authority).1 =
      (compatible && (authority m.getRegistrationSettings).isSome &&
        !m._setpoint_types.isEmpty) := by
    unfold ModeBase.doRegister
    cases compatible
    · rfl
    · have hs : (m.emit Effect.overrideRegistration).getRegistrationSettings =
          m.getRegistrationSettings := rfl
      simp only [Bool.not_true, Bool.false_eq_true, if_false, hs, Bool.true_and]
      cases authority m.getRegistrationSettings with
      | none => rfl
      | some mode_id =>
        simp only [Option.isSome_some, Bool.true_and]
        have h := ModeBase.onRegistered_fst
          { (m.emit Effect.overrideRegistration).emit
              (Effect.registrationDoRegister m.getRegistrationSettings) with
            _registration := { _registered := true, _mode_id := mode_id } } now
        cases hr : ModeBase.onRegistered
          { (m.emit Effect.overrideRegistration).emit
              (Effect.registrationDoRegister m.getRegistrationSettings) with
            _registration := { _registered := true, _mode_id := mode_id } } now with
        | mk ok m4 =>
          rw [hr] at h
          have h' : ok = !m._setpoint_types.isEmpty := h
          cases ok <;> simp [← h']
  refine ⟨h1, rfl, fun hempty => ?_⟩
  rw [h1, hempty]
  simp

/-- The claim C7 on a mode without setpoint types and an accepting authority: registration
fails although the authority registered the mode. -/
theorem doRegister_result_witness :
    emptyMode._setpoint_types = [] ∧
      (emptyMode.doRegister 0 true acceptingAuthority).1 = false ∧
      (orbitModeUnregistered.doRegister 0 true acceptingAuthority).1 = true :=
  ⟨rfl, (doRegister_result emptyMode 0 true acceptingAuthority).2.2 rfl,
    by with_unfolding_all decide⟩

/-- C8, as the code has it: `callOnActivate` with an update rate above `FLT_EPSILON` runs the
activation hook, then exactly one setpoint computation (with the `float` quotient
`1.F / rate` as its argument), then arms the timer if none is armed, and does nothing else;
with a rate of at most `FLT_EPSILON` it runs the activation hook and no setpoint
computation, and arms no timer. -/
theorem callOnActivate_effects_by_rate (m : ModeBase) (now : Int) :
    (m._setpoint_update_rate_hz > FLT_EPSILON →
        (m.callOnActivate now).effectsSince m._trace.length =
            [Effect.onActivate,
                Effect.updateSetpoint (float32Div 1 m._setpoint_update_rate_hz)] ++
              (if m._setpoint_update_timer.isNone then
                [Effect.createWallTimer (ModeBase.timerPeriodMs m._setpoint_update_rate_hz)]
              else []) ∧
          ((m.callOnActivate now).effectsSince m._trace.length).countP
            Effect.isUpdateSetpoint = 1) ∧
      (m._setpoint_update_rate_hz ≤ FLT_EPSILON →
        (m.callOnActivate now).effectsSince m._trace.length =
            [Effect.onActivate] ++
              (if m._setpoint_update_timer.isSome then [Effect.resetTimer] else []) ∧
          ((m.callOnActivate now).effectsSince m._trace.length).countP
            Effect.isUpdateSetpoint = 0) := by
  unfold ModeBase.effectsSince
  rw [ModeBase.callOnActivate_trace, List.drop_left]
  refine ⟨fun h => ?_, fun h => ?_⟩
  · rw [if_pos h]
    refine ⟨rfl, ?_⟩
    split_ifs <;> rfl
  · rw [if_neg (not_lt.2 h)]
    refine ⟨rfl, ?_⟩
    split_ifs <;> rfl

/-- C8 fails at the update rate 0: the activation of the mode "Orbit" with its periodic
updates disabled runs the activation hook and no setpoint computation. -/
theorem callOnActivate_no_update_at_rate_zero :
    orbitModeNoUpdates._is_active = false ∧
      orbitModeNoUpdates._setpoint_update_rate_hz = 0 ∧
      (orbitModeNoUpdates.callOnActivate 1000).effectsSince orbitModeNoUpdates._trace.length =
        [Effect.onActivate] ∧
      ((orbitModeNoUpdates.callOnActivate 1000).effectsSince
        orbitModeNoUpdates._trace.length).countP Effect.isUpdateSetpoint = 0 := by
  with_unfolding_all decide

/-- The amended claim C8 on the mode "Orbit" at 10 Hz: one setpoint computation, with the
`float` quotient `1.F / 10.F`, between the activation hook and the arming of the 100 ms
timer; and no setpoint computation with the periodic updates disabled. -/
theorem callOnActivate_effects_by_rate_witness :
    orbitMode._setpoint_update_rate_hz > FLT_EPSILON ∧
      (orbitMode.callOnActivate 1000).effectsSince orbitMode._trace.length =
        [Effect.onActivate, Effect.updateSetpoint (13421773 / 134217728),
          Effect.createWallTimer 100] ∧
      ((orbitMode.callOnActivate 1000).effectsSince orbitMode._trace.length).countP
        Effect.isUpdateSetpoint = 1 ∧
      orbitModeNoUpdates._setpoint_update_rate_hz ≤ FLT_EPSILON ∧
      (orbitModeNoUpdates.callOnActivate 1000).effectsSince orbitModeNoUpdates._trace.length =
        [Effect.onActivate] :=
  ⟨by with_unfolding_all decide,
    ((callOnActivate_effects_by_rate orbitMode 1000).1
      (by with_unfolding_all decide)).1.trans (by decide!),
    ((callOnActivate_effects_by_rate orbitMode 1000).1 (by with_unfolding_all decide)).2,
    by with_unfolding_all decide,
    ((callOnActivate_effects_by_rate orbitModeNoUpdates 1000).2
      (by with_unfolding_all decide)).1.trans (by with_unfolding_all decide)⟩

namespace ModeBase

/-! ## The update rate from the setpoint types -/

theorem foldl_maxUpdateRate (rate : Nat → ℚ) (l : List Nat) (init : ℚ) :
    init ≤ l.foldl (fun mx p => if rate p > mx then rate p else mx) init ∧
      (∀ p ∈ l, rate p ≤ l.foldl (fun mx p => if rate p > mx then rate p else mx) init) ∧
      (l.foldl (fun mx p => if rate p > mx then rate p else mx) init = init ∨
        ∃ p ∈ l, l.foldl (fun mx p => if rate p > mx then rate p else mx) init = rate p) := by
  induction l generalizing init with
  | nil => simp
  | cons q l ih =>
    rw [List.foldl_cons]
    obtain ⟨h1, h2, h3⟩ := ih (if rate q > init then rate q else init)
    have hinit : init ≤ if rate q > init then rate q else init := by
      split_ifs with h
      · exact le_of_lt h
      · exact le_refl _
    have hq : rate q ≤ if rate q > init then rate q else init := by
      split_ifs with h
      · exact le_refl _
      · exact not_lt.1 h
    refine ⟨le_trans hinit h1, ?_, ?_⟩
    · intro p hp
      rcases List.mem_cons.1 hp with rfl | hp
      · exact le_trans hq h1
      · exact h2 p hp
    · rcases h3 with h3 | ⟨p, hp, h3⟩
      · by_cases h : rate q > init
        · right
          exact ⟨q, List.mem_cons_self _ _, by rw [h3, if_pos h]⟩
        · left
          rw [h3, if_neg h]
      · exact Or.inr ⟨p, List.mem_cons_of_mem _ hp, h3⟩

theorem setSetpointUpdateRate_rate (m : ModeBase) (rate_hz : ℚ) :
    (m.setSetpointUpdateRate rate_hz)._setpoint_update_rate_hz = rate_hz := by
  unfold setSetpointUpdateRate
  simp only [updateSetpointUpdateTimer_rate]

theorem onRegistered_of_cons (m : ModeBase) (now : Int) (first : Nat) (rest : List Nat)
    (h : m._setpoint_types = first :: rest) :
    m.onRegistered now =
      (true, ((m.emit (Effect.configOverridesSetup SOURCE_TYPE_MODE
        m._registration.modeId)).activateSetpointType first
          now).setSetpointUpdateRateFromSetpointTypes) := by
  unfold onRegistered
  have h' : (m.emit (Effect.configOverridesSetup SOURCE_TYPE_MODE
      m._registration.modeId))._setpoint_types = first :: rest := h
  simp only [h']

theorem activateSetpointType_maxUpdateRate (m : ModeBase) (e : Effect) (first : Nat)
    (now : Int) :
    ((m.emit e).activateSetpointType first now).maxUpdateRate = m.maxUpdateRate := by
  unfold maxUpdateRate activateSetpointType updateObject emit SetpointBase.desiredUpdateRateHz
    SetpointBase.setActive
  dsimp only
  congr 1
  funext mx p
  by_cases hp : p = first <;> simp [hp]

theorem activateSetpointType_rate (m : ModeBase) (e : Effect) (first : Nat) (now : Int) :
    ((m.emit e).activateSetpointType first now)._setpoint_update_rate_hz =
      m._setpoint_update_rate_hz := rfl

end ModeBase

/-- C10, as the code has it: after a successful `onRegistered` of a mode with a non-empty
registry, the update rate is the maximum of the desired update rates of the registered
setpoint types if some desired rate is positive; if no desired rate is positive the update
rate is the one from before the registration. -/
theorem onRegistered_update_rate (m : ModeBase) (now : Int) (h : m._setpoint_types ≠ []) :
    (m.onRegistered now).1 = true ∧
      ((∃ p ∈ m._setpoint_types, 0 < (m._heap p).desiredUpdateRateHz) →
        (∃ p ∈ m._setpoint_types,
          (m.onRegistered now).2._setpoint_update_rate_hz = (m._heap p).desiredUpdateRateHz) ∧
        ∀ p ∈ m._setpoint_types,
          (m._heap p).desiredUpdateRateHz ≤ (m.onRegistered now).2._setpoint_update_rate_hz) ∧
      ((∀ p ∈ m._setpoint_types, (m._heap p).desiredUpdateRateHz ≤ 0) →
        (m.onRegistered now).2._setpoint_update_rate_hz = m._setpoint_update_rate_hz) := by
  obtain ⟨first, rest, hreg⟩ := List.exists_cons_of_ne_nil h
  rw [ModeBase.onRegistered_of_cons m now first rest hreg]
  dsimp only
  unfold ModeBase.setSetpointUpdateRateFromSetpointTypes
  dsimp only
  rw [ModeBase.activateSetpointType_maxUpdateRate]
  obtain ⟨h1, h2, h3⟩ := ModeBase.foldl_maxUpdateRate
    (fun p => (m._heap p).desiredUpdateRateHz) m._setpoint_types (-1)
  have hmax : m.maxUpdateRate = m._setpoint_types.foldl
      (fun mx p => if (m._heap p).desiredUpdateRateHz > mx then (m._heap p).desiredUpdateRateHz
        else mx) (-1) := rfl
  rw [← hmax] at h1 h2 h3
  refine ⟨rfl, fun ⟨p, hp, hpos⟩ => ?_, fun hall => ?_⟩
  · have hgt : m.maxUpdateRate > 0 := lt_of_lt_of_le hpos (h2 p hp)
    rw [if_pos hgt, ModeBase.setSetpointUpdateRate_rate]
    refine ⟨?_, h2⟩
    rcases h3 with h3 | h3
    · rw [h3] at hgt
      exact absurd hgt (by norm_num)
    · exact h3
  · have hle : ¬ m.maxUpdateRate > 0 := by
      rcases h3 with h3 | ⟨p, hp, h3⟩
      · rw [h3]; norm_num
      · rw [h3]; exact not_lt.2 (hall p hp)
    rw [if_neg hle, ModeBase.activateSetpointType_rate]

/-- C10 fails when no desired rate is positive: registering a mode whose one setpoint type
has the desired rate 0, after `setSetpointUpdateRate(50)`, leaves the update rate at 50. -/
theorem onRegistered_keeps_rate :
    hoverModeUnregistered._setpoint_types = [0] ∧
      (hoverModeUnregistered._heap 0).desiredUpdateRateHz = 0 ∧
      hoverModeUnregistered._setpoint_update_rate_hz = 50 ∧
      (hoverModeUnregistered.onRegistered 0).1 = true ∧
      (hoverModeUnregistered.onRegistered 0).2._setpoint_update_rate_hz = 50 ∧
      (hoverModeUnregistered.onRegistered 0).2._setpoint_update_rate_hz ≠
        (hoverModeUnregistered._heap 0).desiredUpdateRateHz := by
  with_unfolding_all decide

/-- The amended claim C10 on the mode "Orbit", with setpoint types of 10 Hz and 5 Hz:
registration sets the update rate to 10 Hz. -/
theorem onRegistered_update_rate_witness :
    orbitModeUnregistered._setpoint_types ≠ [] ∧
      (∃ p ∈ orbitModeUnregistered._setpoint_types,
        0 < (orbitModeUnregistered._heap p).desiredUpdateRateHz) ∧
      (orbitModeUnregistered.onRegistered 0).1 = true ∧
      (∀ p ∈ orbitModeUnregistered._setpoint_types,
        (orbitModeUnregistered._heap p).desiredUpdateRateHz ≤
          (orbitModeUnregistered.onRegistered 0).2._setpoint_update_rate_hz) ∧
      (orbitModeUnregistered.onRegistered 0).2._setpoint_update_rate_hz = 10 :=
  ⟨by decide, ⟨0, by decide, by with_unfolding_all decide⟩,
    (onRegistered_update_rate orbitModeUnregistered 0 (by decide)).1,
    ((onRegistered_update_rate orbitModeUnregistered 0 (by decide)).2.1
      ⟨0, by decide, by with_unfolding_all decide⟩).2,
    by with_unfolding_all decide⟩

namespace ModeBase

/-! ## The periodic setpoint timer -/

theorem updateSetpointUpdateTimer_timer (m : ModeBase) :
    m.updateSetpointUpdateTimer._setpoint_update_timer =
      if m._is_active && decide (m._setpoint_update_rate_hz > FLT_EPSILON) then
        if m._setpoint_update_timer.isNone then
          some (timerPeriodMs m._setpoint_update_rate_hz)
        else m._setpoint_update_timer
      else none := by
  unfold updateSetpointUpdateTimer; dsimp only [emit]
  cases ht : m._setpoint_update_timer <;> split_ifs <;> simp_all

theorem updateSetpointUpdateTimer_timerInvariant (m : ModeBase) :
    m.updateSetpointUpdateTimer.timerInvariant = true := by
  unfold timerInvariant
  rw [updateSetpointUpdateTimer_timer, updateSetpointUpdateTimer_is_active,
    updateSetpointUpdateTimer_rate]
  cases ht : m._setpoint_update_timer <;>
    cases ha : (m._is_active && decide (m._setpoint_update_rate_hz > FLT_EPSILON)) <;> simp

theorem callOnActivate_eq (m : ModeBase) (now : Int) :
    ∃ m' : ModeBase, m.callOnActivate now = m'.updateSetpointUpdateTimer ∧
      m'._is_active = true ∧ m'._setpoint_update_rate_hz = m._setpoint_update_rate_hz ∧
      m'._setpoint_update_timer = m._setpoint_update_timer := by
  unfold callOnActivate
  dsimp only [emit]
  split_ifs <;> exact ⟨_, rfl, rfl, rfl, rfl⟩

theorem callOnDeactivate_eq (m : ModeBase) :
    ∃ m' : ModeBase, m.callOnDeactivate = m'.updateSetpointUpdateTimer ∧
      m'._is_active = false ∧ m'._setpoint_update_rate_hz = m._setpoint_update_rate_hz ∧
      m'._setpoint_update_timer = m._setpoint_update_timer := by
  unfold callOnDeactivate
  dsimp only [emit]
  exact ⟨_, rfl, rfl, rfl, rfl⟩

theorem setSetpointUpdateRate_eq (m : ModeBase) (rate_hz : ℚ) :
    ∃ m' : ModeBase, m.setSetpointUpdateRate rate_hz = m'.updateSetpointUpdateTimer ∧
      m'._is_active = m._is_active ∧ m'._setpoint_update_rate_hz = rate_hz ∧
      m'._setpoint_update_timer = none := by
  unfold setSetpointUpdateRate
  dsimp only [emit]
  cases ht : m._setpoint_update_timer
  · exact ⟨_, rfl, by simp, rfl, by simp [ht]⟩
  · exact ⟨_, rfl, by simp, rfl, by simp⟩

theorem callOnActivate_timerInvariant (m : ModeBase) (now : Int) :
    (m.callOnActivate now).timerInvariant = true := by
  obtain ⟨m', h, -⟩ := callOnActivate_eq m now
  rw [h]; exact updateSetpointUpdateTimer_timerInvariant m'

theorem callOnDeactivate_timerInvariant (m : ModeBase) :
    m.callOnDeactivate.timerInvariant = true :=
  updateSetpointUpdateTimer_timerInvariant _

theorem setSetpointUpdateRate_timerInvariant (m : ModeBase) (rate_hz : ℚ) :
    (m.setSetpointUpdateRate rate_hz).timerInvariant = true := by
  obtain ⟨m', h, -⟩ := setSetpointUpdateRate_eq m rate_hz
  rw [h]; exact updateSetpointUpdateTimer_timerInvariant m'

theorem vehicleStatusUpdated_timerInvariant (m : ModeBase) (now : Int) (msg : VehicleStatus)
    (do_not_activate : Bool) (h : m.timerInvariant = true) :
    (m.vehicleStatusUpdated now msg do_not_activate).timerInvariant = true := by
  unfold vehicleStatusUpdated
  dsimp only
  split_ifs
  · exact callOnActivate_timerInvariant _ now
  · exact h
  · exact callOnDeactivate_timerInvariant _
  · exact h

theorem callOnDeactivate_timer (m : ModeBase) :
    m.callOnDeactivate._setpoint_update_timer = none := by
  obtain ⟨m', h, ha, -⟩ := callOnDeactivate_eq m
  rw [h, updateSetpointUpdateTimer_timer, ha]
  rfl

theorem FLT_EPSILON_pos : (0 : ℚ) < FLT_EPSILON := by
  unfold FLT_EPSILON; norm_num

end ModeBase

/-- C11: after each of `callOnActivate`, `callOnDeactivate` and `setSetpointUpdateRate`, from
any state, and after `vehicleStatusUpdated` from any state in which it holds, the timer
invariant holds: a periodic setpoint timer exists iff the mode is active and the update rate
is above `FLT_EPSILON`. After `callOnDeactivate` no timer exists whatever the rate, and
`setSetpointUpdateRate` with a rate of at most zero leaves no timer. -/
theorem timerInvariant_preserved (m : ModeBase) :
    (∀ now, (m.callOnActivate now).timerInvariant = true) ∧
      m.callOnDeactivate.timerInvariant = true ∧
      (∀ rate_hz, (m.setSetpointUpdateRate rate_hz).timerInvariant = true) ∧
      (∀ now msg do_not_activate, m.timerInvariant = true →
        (m.vehicleStatusUpdated now msg do_not_activate).timerInvariant = true) ∧
      m.callOnDeactivate._setpoint_update_timer = none ∧
      (∀ rate_hz, rate_hz ≤ 0 →
        (m.setSetpointUpdateRate rate_hz)._setpoint_update_timer = none) := by
  refine ⟨ModeBase.callOnActivate_timerInvariant m, ModeBase.callOnDeactivate_timerInvariant m,
    ModeBase.setSetpointUpdateRate_timerInvariant m,
    fun now msg d h => ModeBase.vehicleStatusUpdated_timerInvariant m now msg d h,
    ModeBase.callOnDeactivate_timer m, fun rate_hz hr => ?_⟩
  obtain ⟨m', h, -, hrate, -⟩ := ModeBase.setSetpointUpdateRate_eq m rate_hz
  rw [h, ModeBase.updateSetpointUpdateTimer_timer, hrate]
  have hne : ¬ rate_hz > FLT_EPSILON :=
    not_lt.2 (le_trans hr (le_of_lt ModeBase.FLT_EPSILON_pos))
  simp [hne]

/-- The claim C11 on the activated mode "Orbit": the invariant holds, it still holds after the
deactivating status "armed, nav state 4", which leaves no timer, and setting the rate -1
leaves no timer. -/
theorem timerInvariant_preserved_witness :
    orbitModeActivated.timerInvariant = true ∧
      orbitModeActivated._setpoint_update_timer = some 100 ∧
      (orbitModeActivated.vehicleStatusUpdated 2000 ⟨ARMING_STATE_ARMED, 4⟩
        false).timerInvariant = true ∧
      (orbitModeActivated.vehicleStatusUpdated 2000 ⟨ARMING_STATE_ARMED, 4⟩
        false)._setpoint_update_timer = none ∧
      (-1 : ℚ) ≤ 0 ∧
      (orbitModeActivated.setSetpointUpdateRate (-1))._setpoint_update_timer = none :=
  ⟨by with_unfolding_all decide, by with_unfolding_all decide,
    (timerInvariant_preserved orbitModeActivated).2.2.2.1 2000 ⟨ARMING_STATE_ARMED, 4⟩ false
      (by with_unfolding_all decide),
    by with_unfolding_all decide, by norm_num,
    (timerInvariant_preserved orbitModeActivated).2.2.2.2.2 (-1) (by norm_num)⟩

namespace ModeBase

end ModeBase

theorem alternatingHooks_succ (n : Nat) :
    alternatingHooks (n + 1) =
      alternatingHooks n ++ [if n % 2 = 0 then Effect.onActivate else Effect.onDeactivate] := by
  unfold alternatingHooks
  rw [List.range_succ, List.map_append]
  rfl

theorem HookInv.none {es : List Effect} {active : Bool} (h : HookInv es active)
    (new : List Effect) (hn : ∀ e ∈ new, e.isHook = false) : HookInv (es ++ new) active := by
  have hf : new.filter Effect.isHook = [] := by
    rw [List.filter_eq_nil_iff]
    intro e he
    simp [hn e he]
  have ha : new.countP Effect.isActivate = 0 := by
    rw [List.countP_eq_zero]
    intro e he
    have := hn e he
    unfold Effect.isHook at this
    simp only [Bool.or_eq_false_iff] at this
    simp [this.1]
  have hd : new.countP Effect.isDeactivate = 0 := by
    rw [List.countP_eq_zero]
    intro e he
    have := hn e he
    unfold Effect.isHook at this
    simp only [Bool.or_eq_false_iff] at this
    simp [this.2]
  unfold HookInv at h ⊢
  rw [List.filter_append, hf, List.append_nil, List.countP_append, List.countP_append, ha, hd]
  exact h

theorem HookInv.activate {es : List Effect} (h : HookInv es false) (new : List Effect)
    (hn : ∀ e ∈ new, e.isHook = false) : HookInv (es ++ Effect.onActivate :: new) true := by
  have h1 : HookInv (es ++ [Effect.onActivate]) true := by
    unfold HookInv at h ⊢
    obtain ⟨h1, h2, h3⟩ := h
    have hpar : (es.filter Effect.isHook).length % 2 = 0 := by
      have : ¬ (es.filter Effect.isHook).length % 2 = 1 := by simpa using h2
      omega
    have hf : (es ++ [Effect.onActivate]).filter Effect.isHook =
        es.filter Effect.isHook ++ [Effect.onActivate] := by
      rw [List.filter_append]; rfl
    refine ⟨?_, ?_, ?_⟩
    · rw [hf, List.length_append, List.length_singleton, alternatingHooks_succ, if_pos hpar,
        ← h1]
    · rw [hf, List.length_append, List.length_singleton]
      simp only [decide_eq_true_eq]; omega
    · rw [List.countP_append, List.countP_append, h3]
      simp [Effect.isActivate, Effect.isDeactivate, List.countP_cons]
  have := h1.none new hn
  simpa using this

theorem HookInv.deactivate {es : List Effect} (h : HookInv es true) (new : List Effect)
    (hn : ∀ e ∈ new, e.isHook = false) :
    HookInv (es ++ Effect.onDeactivate :: new) false := by
  have h1 : HookInv (es ++ [Effect.onDeactivate]) false := by
    unfold HookInv at h ⊢
    obtain ⟨h1, h2, h3⟩ := h
    have hpar : (es.filter Effect.isHook).length % 2 = 1 := by simpa using h2
    have hf : (es ++ [Effect.onDeactivate]).filter Effect.isHook =
        es.filter Effect.isHook ++ [Effect.onDeactivate] := by
      rw [List.filter_append]; rfl
    refine ⟨?_, ?_, ?_⟩
    · rw [hf, List.length_append, List.length_singleton, alternatingHooks_succ,
        if_neg (by omega), ← h1]
    · rw [hf, List.length_append, List.length_singleton]
      simp only [decide_eq_false_iff_not]; omega
    · rw [List.countP_append, List.countP_append, h3]
      simp [Effect.isActivate, Effect.isDeactivate, List.countP_cons]
  have := h1.none new hn
  simpa using this

namespace ModeBase

theorem callOnActivate_hooks (m : ModeBase) (now : Int) :
    ∃ new, (m.callOnActivate now)._trace = m._trace ++ Effect.onActivate :: new ∧
      ∀ e ∈ new, e.isHook = false := by
  rw [callOnActivate_trace]
  split_ifs <;> simp [Effect.isHook, Effect.isActivate, Effect.isDeactivate]

theorem callOnDeactivate_hooks (m : ModeBase) :
    ∃ new, m.callOnDeactivate._trace = m._trace ++ Effect.onDeactivate :: new ∧
      ∀ e ∈ new, e.isHook = false := by
  rw [callOnDeactivate_trace]
  split_ifs <;> simp [Effect.isHook, Effect.isActivate, Effect.isDeactivate]

/-- Every call keeps the invariant of the hooks. -/
theorem call_hookInv (m : ModeBase) (c : Call) (es : List Effect) (start : List Effect)
    (htrace : m._trace = start ++ es) (h : HookInv es m._is_active) :
    ∃ es', (m.call c)._trace = start ++ es' ∧ HookInv es' (m.call c)._is_active := by
  cases c with
  | vehicleStatusUpdated now msg d =>
    unfold call vehicleStatusUpdated
    dsimp only
    split_ifs with h1 h2 h3
    · obtain ⟨new, hnew, hn⟩ := callOnActivate_hooks
        { m with _is_armed := decide (msg.arming_state = ARMING_STATE_ARMED) } now
      refine ⟨es ++ Effect.onActivate :: new, ?_, ?_⟩
      · rw [hnew]; dsimp only; rw [htrace, List.append_assoc]
      · rw [callOnActivate_is_active]
        have hf : m._is_active = false :=
          Bool.eq_false_iff.2 fun ha => h1 (ha.trans h2.symm)
        rw [hf] at h
        exact h.activate new hn
    · exact ⟨es, htrace, h⟩
    · obtain ⟨new, hnew, hn⟩ := callOnDeactivate_hooks
        { m with _is_armed := decide (msg.arming_state = ARMING_STATE_ARMED) }
      refine ⟨es ++ Effect.onDeactivate :: new, ?_, ?_⟩
      · rw [hnew]; dsimp only; rw [htrace, List.append_assoc]
      · rw [callOnDeactivate_is_active]
        have ht : m._is_active = true := by
          have hne : m._is_active ≠ false := fun ha =>
            h1 (ha.trans (Bool.eq_false_iff.2 h2).symm)
          simpa using hne
        rw [ht] at h
        exact h.deactivate new hn
    · exact ⟨es, htrace, h⟩
  | completed now result =>
    unfold call completed
    dsimp only [emit]
    split_ifs with hc
    · exact ⟨es, htrace, h⟩
    · refine ⟨es ++ [Effect.publishModeCompleted
        ⟨m.id % 256, result % 256, timestampOf now⟩], ?_, ?_⟩
      · dsimp only; rw [htrace, List.append_assoc]
      · dsimp only
        exact h.none _ (by simp [Effect.isHook, Effect.isActivate, Effect.isDeactivate])

theorem calls_hookInv (m : ModeBase) (hinactive : m._is_active = false) (cs : List Call) :
    ∃ es, (m.calls cs)._trace = m._trace ++ es ∧ HookInv es (m.calls cs)._is_active := by
  induction cs using List.reverseRecOn with
  | nil =>
    refine ⟨[], by simp [calls], ?_⟩
    simp [calls, HookInv, hinactive, alternatingHooks]
  | append_singleton cs c ih =>
    obtain ⟨es, htrace, hinv⟩ := ih
    have h := call_hookInv (m.calls cs) c es m._trace htrace hinv
    simpa [calls, List.foldl_append] using h

end ModeBase

/-- C12: from an inactive mode, at every point of every sequence of vehicle-status updates,
with any `do_not_activate` flags (and of `completed` calls), the invocations of the
activation and deactivation hooks so far alternate strictly, starting with an activation;
the activations are at least as many as the deactivations and at most one more, and one
more exactly when the mode is active. -/
theorem hooks_alternate (m : ModeBase) (hinactive : m._is_active = false) (cs : List Call)
    (point : Nat) :
    ((m.calls (cs.take point)).effectsSince m._trace.length).filter Effect.isHook =
        alternatingHooks
          (((m.calls (cs.take point)).effectsSince m._trace.length).filter
            Effect.isHook).length ∧
      ((m.calls (cs.take point)).effectsSince m._trace.length).countP Effect.isDeactivate ≤
        ((m.calls (cs.take point)).effectsSince m._trace.length).countP Effect.isActivate ∧
      ((m.calls (cs.take point)).effectsSince m._trace.length).countP Effect.isActivate ≤
        ((m.calls (cs.take point)).effectsSince m._trace.length).countP Effect.isDeactivate
          + 1 ∧
      (((m.calls (cs.take point)).effectsSince m._trace.length).countP Effect.isActivate =
          ((m.calls (cs.take point)).effectsSince m._trace.length).countP
            Effect.isDeactivate + 1 ↔
        (m.calls (cs.take point))._is_active = true) := by
  obtain ⟨es, htrace, h1, -, h3⟩ := ModeBase.calls_hookInv m hinactive (cs.take point)
  have hes : (m.calls (cs.take point)).effectsSince m._trace.length = es := by
    unfold ModeBase.effectsSince
    rw [htrace, List.drop_left]
  rw [hes]
  refine ⟨h1, ?_, ?_, ?_⟩
  · rw [h3]; exact Nat.le_add_right _ _
  · rw [h3]; split_ifs <;> omega
  · rw [h3]
    cases (m.calls (cs.take point))._is_active <;> simp

/-- The claim C12 on the mode "Orbit" and the updates `orbitStatusCalls`: the suppressed
activation runs no hook, then the hooks are activation, deactivation, activation, and the
mode ends active with one activation more than deactivations. -/
theorem hooks_alternate_witness :
    orbitMode._is_active = false ∧
      ((orbitMode.calls (orbitStatusCalls.take 1)).effectsSince
        orbitMode._trace.length).filter Effect.isHook = [] ∧
      ((orbitMode.calls (orbitStatusCalls.take 4)).effectsSince
          orbitMode._trace.length).filter Effect.isHook =
        [Effect.onActivate, Effect.onDeactivate, Effect.onActivate] ∧
      (orbitMode.calls (orbitStatusCalls.take 4))._is_active = true ∧
      ((orbitMode.calls (orbitStatusCalls.take 4)).effectsSince
          orbitMode._trace.length).countP Effect.isActivate =
        ((orbitMode.calls (orbitStatusCalls.take 4)).effectsSince
          orbitMode._trace.length).countP Effect.isDeactivate + 1 :=
  ⟨rfl, ((hooks_alternate orbitMode rfl orbitStatusCalls 1).1).trans
      (by with_unfolding_all decide),
    ((hooks_alternate orbitMode rfl orbitStatusCalls 4).1).trans
      (by with_unfolding_all decide),
    by with_unfolding_all decide,
    ((hooks_alternate orbitMode rfl orbitStatusCalls 4).2.2.2).2
      (by with_unfolding_all decide)⟩

theorem any_eq_of_perm {α : Type} {l l' : List α} (h : l.Perm l') (f : α → Bool) :
    l.any f = l'.any f := by
  rw [Bool.eq_iff_iff, List.any_eq_true, List.any_eq_true]
  exact ⟨fun ⟨x, hx, hf⟩ => ⟨x, h.mem_iff.1 hx, hf⟩,
    fun ⟨x, hx, hf⟩ => ⟨x, h.mem_iff.2 hx, hf⟩⟩

/-- C13: the record that `updateModeRequirementsFromSetpoints` computes is the same for a
list of setpoint configurations and for every permutation of it, with either value of the
manual-control flag; and running `updateModeRequirementsFromSetpoints` a second time changes
nothing. -/
theorem modeRequirementsFromSetpoints_perm (configs configs' : List Configuration)
    (require_manual_control_input : Bool) (h : configs.Perm configs') :
    ModeBase.modeRequirementsFromSetpoints configs require_manual_control_input =
        ModeBase.modeRequirementsFromSetpoints configs' require_manual_control_input ∧
      ∀ m : ModeBase,
        m.updateModeRequirementsFromSetpoints.updateModeRequirementsFromSetpoints =
          m.updateModeRequirementsFromSetpoints := by
  refine ⟨?_, fun m => rfl⟩
  unfold ModeBase.modeRequirementsFromSetpoints
  rw [ModeBase.foldl_requirementsLoopBody, ModeBase.foldl_requirementsLoopBody,
    any_eq_of_perm h, any_eq_of_perm h, any_eq_of_perm h, any_eq_of_perm h]

/-- The claim C13 on two configurations in both orders. -/
theorem modeRequirementsFromSetpoints_perm_witness :
    List.Perm [({ rates_enabled := true } : Configuration), { velocity_enabled := true }]
        [{ velocity_enabled := true }, { rates_enabled := true }] ∧
      ModeBase.modeRequirementsFromSetpoints
          [{ rates_enabled := true }, { velocity_enabled := true }] true =
        ModeBase.modeRequirementsFromSetpoints
          [{ velocity_enabled := true }, { rates_enabled := true }] true :=
  ⟨List.Perm.swap _ _ _,
    (modeRequirementsFromSetpoints_perm _ _ true (List.Perm.swap _ _ _)).1⟩

/-- C14: the record that `updateModeRequirementsFromSetpoints` computes never has both
`local_position` and `local_position_relaxed` set, for every list of setpoint configurations
and either value of the manual-control flag. -/
theorem modeRequirementsFromSetpoints_local_position_exclusive (configs : List Configuration)
    (require_manual_control_input : Bool) :
    ¬ ((ModeBase.modeRequirementsFromSetpoints configs
          require_manual_control_input).local_position = true ∧
        (ModeBase.modeRequirementsFromSetpoints configs
          require_manual_control_input).local_position_relaxed = true) ∧
      ∀ m : ModeBase,
        ¬ (m.updateModeRequirementsFromSetpoints.storedRequirements.local_position = true ∧
          m.updateModeRequirementsFromSetpoints.storedRequirements.local_position_relaxed =
            true) := by
  have key : ∀ (cs : List Configuration) (b : Bool),
      ¬ ((ModeBase.modeRequirementsFromSetpoints cs b).local_position = true ∧
        (ModeBase.modeRequirementsFromSetpoints cs b).local_position_relaxed = true) := by
    intro cs b
    unfold ModeBase.modeRequirementsFromSetpoints
    rw [ModeBase.foldl_requirementsLoopBody]
    cases b <;> cases h : (cs.any fun c => c.velocity_enabled || c.position_enabled) <;>
      simp [h]
  exact ⟨key configs require_manual_control_input, fun m => key _ _⟩

namespace ModeBase

/-! ## The first activation at registration -/

end ModeBase

/-- C16: `setHealth` sets the health tuple of the reply to its arguments and leaves the
events, `num_events` and `can_arm_and_run` as they were, also with `error` set; after a
non-empty sequence of `setHealth` calls the tuple is that of the last call and the rest of
the reply is as before the sequence. -/
theorem setHealth_last_wins (r : HealthAndArmingCheckReporter) (calls : List HealthCall)
    (last : HealthCall) :
    (r.setHealth last.health_component_index last.is_present last.warning
        last.error)._arming_check_reply =
        { r._arming_check_reply with
          health_component_index := last.health_component_index
          health_component_is_present := last.is_present
          health_component_warning := last.warning
          health_component_error := last.error } ∧
      (r.setHealth last.health_component_index last.is_present last.warning
        true)._arming_check_reply.can_arm_and_run = r._arming_check_reply.can_arm_and_run ∧
      (r.setHealthAll (calls ++ [last]))._arming_check_reply =
        { r._arming_check_reply with
          health_component_index := last.health_component_index
          health_component_is_present := last.is_present
          health_component_warning := last.warning
          health_component_error := last.error } ∧
      (r.setHealthAll (calls ++ [last]))._arming_check_reply.events =
        r._arming_check_reply.events ∧
      (r.setHealthAll (calls ++ [last]))._arming_check_reply.num_events =
        r._arming_check_reply.num_events ∧
      (r.setHealthAll (calls ++ [last]))._arming_check_reply.can_arm_and_run =
        r._arming_check_reply.can_arm_and_run := by
  have hframe : ∀ (cs : List HealthCall) (r0 : HealthAndArmingCheckReporter),
      (r0.setHealthAll cs)._arming_check_reply.events = r0._arming_check_reply.events ∧
        (r0.setHealthAll cs)._arming_check_reply.num_events =
          r0._arming_check_reply.num_events ∧
        (r0.setHealthAll cs)._arming_check_reply.can_arm_and_run =
          r0._arming_check_reply.can_arm_and_run := by
    intro cs
    induction cs with
    | nil => intro r0; exact ⟨rfl, rfl, rfl⟩
    | cons c cs ih =>
      intro r0
      exact ih (r0.setHealth c.health_component_index c.is_present c.warning c.error)
  have hall : (r.setHealthAll (calls ++ [last]))._arming_check_reply =
      { r._arming_check_reply with
        health_component_index := last.health_component_index
        health_component_is_present := last.is_present
        health_component_warning := last.warning
        health_component_error := last.error } := by
    obtain ⟨h1, h2, h3⟩ := hframe calls r
    have hstep : r.setHealthAll (calls ++ [last]) =
        (r.setHealthAll calls).setHealth last.health_component_index last.is_present
          last.warning last.error := by
      unfold HealthAndArmingCheckReporter.setHealthAll
      rw [List.foldl_append]
      rfl
    rw [hstep]
    simp only [HealthAndArmingCheckReporter.setHealth, h1, h2, h3]
  refine ⟨rfl, rfl, hall, ?_, ?_, ?_⟩ <;> rw [hall]

theorem ModeBase.vehicleStatusUpdated_activates (m : ModeBase) (now : Int)
    (msg : VehicleStatus) (hinactive : m._is_active = false)
    (hdesired : (decide (m.id = msg.nav_state) &&
      (decide (msg.arming_state = ARMING_STATE_ARMED) ||
        m._settings.activate_even_while_disarmed)) = true) :
    m.vehicleStatusUpdated now msg false =
      ModeBase.callOnActivate
        { m with _is_armed := decide (msg.arming_state = ARMING_STATE_ARMED) } now := by
  unfold ModeBase.vehicleStatusUpdated
  dsimp only
  split_ifs with h1 h2 h3
  · rfl
  · exact absurd h3 (by simp)
  · exact absurd hdesired h2
  · exact absurd (hinactive.symm.trans ((not_not.1 h1).trans hdesired)) (by decide)

/-- C17: a vehicle-status update processed with `do_not_activate = true` while the mode is
inactive updates the armed flag from the message and changes nothing else: no activation
hook and no setpoint computation runs, and the active flag, the completed flag, the time of
the last setpoint update and the timer are as before. The mode stays inactive even when the
status asks for the mode, and a later update with the same status and
`do_not_activate = false` performs the activation. -/
theorem vehicleStatusUpdated_do_not_activate (m : ModeBase) (now : Int) (msg : VehicleStatus)
    (hinactive : m._is_active = false) :
    m.vehicleStatusUpdated now msg true =
        { m with _is_armed := decide (msg.arming_state = ARMING_STATE_ARMED) } ∧
      (m.vehicleStatusUpdated now msg true)._is_armed =
        decide (msg.arming_state = ARMING_STATE_ARMED) ∧
      (m.vehicleStatusUpdated now msg true).effectsSince m._trace.length = [] ∧
      (m.vehicleStatusUpdated now msg true)._is_active = false ∧
      (m.vehicleStatusUpdated now msg true)._completed = m._completed ∧
      (m.vehicleStatusUpdated now msg true)._last_setpoint_update = m._last_setpoint_update ∧
      (m.vehicleStatusUpdated now msg true)._setpoint_update_timer =
        m._setpoint_update_timer ∧
      ((decide (m.id = msg.nav_state) &&
          (decide (msg.arming_state = ARMING_STATE_ARMED) ||
            m._settings.activate_even_while_disarmed)) = true →
        ∀ later : Int,
          (m.vehicleStatusUpdated now msg true).vehicleStatusUpdated later msg false =
              (m.vehicleStatusUpdated now msg true).callOnActivate later ∧
            ((m.vehicleStatusUpdated now msg true).vehicleStatusUpdated later msg
              false)._is_active = true ∧
            (((m.vehicleStatusUpdated now msg true).vehicleStatusUpdated later msg
              false).effectsSince m._trace.length).head? = some Effect.onActivate) := by
  have heq : m.vehicleStatusUpdated now msg true =
      { m with _is_armed := decide (msg.arming_state = ARMING_STATE_ARMED) } := by
    unfold ModeBase.vehicleStatusUpdated
    dsimp only
    rw [hinactive]
    split_ifs with h1 h2 h3
    · exact absurd h3 (by simp)
    · rfl
    · exact absurd (Bool.eq_false_iff.2 h2).symm h1
    · rfl
  refine ⟨heq, ?_, ?_, ?_, ?_, ?_, ?_, fun hdesired later => ?_⟩
  · rw [heq]
  · rw [heq]; unfold ModeBase.effectsSince; dsimp only; exact List.drop_length _
  · rw [heq]; exact hinactive
  · rw [heq]
  · rw [heq]
  · rw [heq]
  · have hcall : (m.vehicleStatusUpdated now msg true).vehicleStatusUpdated later msg false =
        (m.vehicleStatusUpdated now msg true).callOnActivate later := by
      rw [heq]
      exact ModeBase.vehicleStatusUpdated_activates _ later msg hinactive hdesired
    refine ⟨hcall, ?_, ?_⟩
    · rw [hcall]; exact ModeBase.callOnActivate_is_active _ later
    · rw [hcall]
      unfold ModeBase.effectsSince
      obtain ⟨new, hnew, -⟩ := ModeBase.callOnActivate_hooks
        (m.vehicleStatusUpdated now msg true) later
      rw [hnew, heq]
      dsimp only
      rw [List.drop_left]
      rfl

/-- The claim C17 on the mode "Orbit": the suppressed update leaves it inactive without an
effect, and the same status without suppression activates it. -/
theorem vehicleStatusUpdated_do_not_activate_witness :
    orbitMode._is_active = false ∧
      (orbitMode.vehicleStatusUpdated 1000 ⟨ARMING_STATE_ARMED, 5⟩ true)._is_active = false ∧
      (orbitMode.vehicleStatusUpdated 1000 ⟨ARMING_STATE_ARMED, 5⟩ true).effectsSince
        orbitMode._trace.length = [] ∧
      ((orbitMode.vehicleStatusUpdated 1000 ⟨ARMING_STATE_ARMED, 5⟩
        true).vehicleStatusUpdated 2000 ⟨ARMING_STATE_ARMED, 5⟩ false)._is_active = true :=
  ⟨rfl,
    (vehicleStatusUpdated_do_not_activate orbitMode 1000 ⟨ARMING_STATE_ARMED, 5⟩
      rfl).2.2.2.1,
    (vehicleStatusUpdated_do_not_activate orbitMode 1000 ⟨ARMING_STATE_ARMED, 5⟩ rfl).2.2.1,
    ((vehicleStatusUpdated_do_not_activate orbitMode 1000 ⟨ARMING_STATE_ARMED, 5⟩
      rfl).2.2.2.2.2.2.2 (by decide) 2000).2.1⟩

/-- C18: `callOnActivate` clears the completed flag from every state, and the next
`completed(result)` call publishes one notification and sets the flag; the notification
carries `id()` and the result code as unsigned 8 bit values, so the mode's id and the given
result code themselves when these are in the range of their type. -/
theorem callOnActivate_resets_completed (m : ModeBase) (now later : Int) (result : Result) :
    (m.callOnActivate now)._completed = false ∧
      ((m.callOnActivate now).completed later result).effectsSince
          (m.callOnActivate now)._trace.length =
        [Effect.publishModeCompleted
          ⟨m.id % 256, result % 256, ModeBase.timestampOf later⟩] ∧
      ((m.callOnActivate now).completed later result)._completed = true ∧
      (m.id < 256 → result < 256 →
        ((m.callOnActivate now).completed later result).effectsSince
            (m.callOnActivate now)._trace.length =
          [Effect.publishModeCompleted ⟨m.id, result, ModeBase.timestampOf later⟩]) := by
  have hc := ModeBase.callOnActivate_completed m now
  have hid : (m.callOnActivate now).id = m.id := by
    unfold ModeBase.id
    rw [ModeBase.callOnActivate_registration]
  have heff : ((m.callOnActivate now).completed later result).effectsSince
      (m.callOnActivate now)._trace.length =
      [Effect.publishModeCompleted
        ⟨m.id % 256, result % 256, ModeBase.timestampOf later⟩] := by
    unfold ModeBase.completed ModeBase.effectsSince
    rw [hc]
    simp only [Bool.false_eq_true, if_false, ModeBase.emit, hid]
    exact List.drop_left _ _
  refine ⟨hc, heff, ?_, fun h1 h2 => ?_⟩
  · unfold ModeBase.completed
    rw [hc]
    rfl
  · rw [heff, Nat.mod_eq_of_lt h1, Nat.mod_eq_of_lt h2]

/-- The claim C18 on the mode "Orbit", completed in its first activation and activated
again: the next `completed(1)` publishes one notification with the id 5 and the result 1. -/
theorem callOnActivate_resets_completed_witness :
    (orbitMode.calls (orbitCalls.take 4))._completed = true ∧
      (orbitMode.calls (orbitCalls.take 4)).id < 256 ∧ (1 : Result) < 256 ∧
      (((orbitMode.calls (orbitCalls.take 4)).callOnActivate 5000).completed 6000
          1).effectsSince ((orbitMode.calls (orbitCalls.take 4)).callOnActivate
            5000)._trace.length =
        [Effect.publishModeCompleted ⟨5, 1, 6⟩] :=
  ⟨by with_unfolding_all decide, by with_unfolding_all decide, by decide,
    ((callOnActivate_resets_completed (orbitMode.calls (orbitCalls.take 4)) 5000 6000 1).2.2.2
      (by with_unfolding_all decide) (by decide)).trans (by with_unfolding_all decide)⟩

namespace ModeBase

/-! ## The stored requirements during setup -/

theorem updateModeRequirementsFromSetpoints_stored (m : ModeBase) :
    m.updateModeRequirementsFromSetpoints.storedRequirements =
      modeRequirementsFromSetpoints m.configurations m._require_manual_control_input := rfl

theorem setup_frame (m : ModeBase) (c : SetupCall) :
    (m.setup c)._setpoint_types = m._setpoint_types ++ SetupCall.added [c] ∧
      (m.setup c)._require_manual_control_input =
        (m._require_manual_control_input || c.requiresManualControl) ∧
      (∀ p, ((m.setup c)._heap p).getConfiguration = (m._heap p).getConfiguration) := by
  cases c with
  | addSetpointType setpoint =>
    refine ⟨rfl, by simp [setup, addSetpointTypeImpl, updateModeRequirementsFromSetpoints,
      updateObject, SetupCall.requiresManualControl], fun p => ?_⟩
    unfold setup addSetpointTypeImpl updateModeRequirementsFromSetpoints updateObject
      SetpointBase.setShouldActivateCallback SetpointBase.getConfiguration
    dsimp only
    split_ifs <;> rfl
  | createManualControlInput is_optional =>
    cases is_optional
    · exact ⟨by simp [setup, createManualControlInput, updateModeRequirementsFromSetpoints,
        SetupCall.added],
        by simp [setup, createManualControlInput, updateModeRequirementsFromSetpoints,
          SetupCall.requiresManualControl], fun p => rfl⟩
    · exact ⟨by simp [setup, createManualControlInput, SetupCall.added],
        by simp [setup, createManualControlInput, SetupCall.requiresManualControl],
        fun p => rfl⟩

theorem configurations_congr (m m' : ModeBase) (h1 : m'._setpoint_types = m._setpoint_types)
    (h2 : ∀ p, (m'._heap p).getConfiguration = (m._heap p).getConfiguration) :
    m'.configurations = m.configurations := by
  unfold configurations
  rw [h1]
  exact List.map_congr_left fun p _ => h2 p

theorem setup_storedInv (m : ModeBase) (c : SetupCall) (h : StoredInv m) :
    StoredInv (m.setup c) := by
  cases c with
  | addSetpointType setpoint =>
    unfold StoredInv setup addSetpointTypeImpl
    dsimp only
    rw [updateModeRequirementsFromSetpoints_stored]
    rfl
  | createManualControlInput is_optional =>
    cases is_optional
    · unfold StoredInv setup createManualControlInput
      simp only [Bool.not_false, if_true]
      rw [updateModeRequirementsFromSetpoints_stored]
      rfl
    · exact h

theorem setups_spec (cs : List SetupCall) (m : ModeBase) (h : StoredInv m) :
    StoredInv (m.setups cs) ∧
      (m.setups cs)._setpoint_types = m._setpoint_types ++ SetupCall.added cs ∧
      (m.setups cs)._require_manual_control_input =
        (m._require_manual_control_input || cs.any SetupCall.requiresManualControl) ∧
      (∀ p, ((m.setups cs)._heap p).getConfiguration = (m._heap p).getConfiguration) := by
  induction cs generalizing m with
  | nil => exact ⟨h, by simp [setups, SetupCall.added], by simp [setups], fun p => rfl⟩
  | cons c cs ih =>
    obtain ⟨f1, f2, f3⟩ := setup_frame m c
    obtain ⟨i1, i2, i3, i4⟩ := ih (m.setup c) (setup_storedInv m c h)
    have hs : m.setups (c :: cs) = (m.setup c).setups cs := rfl
    rw [hs]
    refine ⟨i1, ?_, ?_, fun p => (i4 p).trans (f3 p)⟩
    · rw [i2, f1, List.append_assoc]
      congr 1
      unfold SetupCall.added
      rw [← List.filterMap_append]
      rfl
    · rw [i3, f2, List.any_cons, Bool.or_assoc]

end ModeBase

/-- C19: after any sequence of `addSetpointType` and `createManualControlInput` calls on a
newly constructed mode, the stored requirements record is the aggregate of the
configurations of the setpoint types added so far, in the order of their addition, with the
manual-control flag set iff some `createManualControlInput` call had `is_optional = false`.
Two sequences that add the same setpoint types and agree on that flag store the same
record, and `createManualControlInput(true)` changes nothing. -/
theorem setups_stored_requirements (m : ModeBase) (cs : List SetupCall)
    (htypes : m._setpoint_types = []) (hmanual : m._require_manual_control_input = false)
    (hstored : m.storedRequirements = {}) :
    (m.setups cs).storedRequirements =
        ModeBase.modeRequirementsFromSetpoints
          ((SetupCall.added cs).map fun p => (m._heap p).getConfiguration)
          (cs.any SetupCall.requiresManualControl) ∧
      (m.setups cs)._setpoint_types = SetupCall.added cs ∧
      (∀ cs' : List SetupCall, SetupCall.added cs' = SetupCall.added cs →
        cs'.any SetupCall.requiresManualControl = cs.any SetupCall.requiresManualControl →
        (m.setups cs').storedRequirements = (m.setups cs).storedRequirements) ∧
      ∀ m' : ModeBase, m'.createManualControlInput true = m' := by
  have hinv : m.StoredInv := by
    unfold ModeBase.StoredInv ModeBase.configurations
    rw [hstored, htypes, hmanual]
    rfl
  have key : ∀ cs0 : List SetupCall, (m.setups cs0).storedRequirements =
      ModeBase.modeRequirementsFromSetpoints
        ((SetupCall.added cs0).map fun p => (m._heap p).getConfiguration)
        (cs0.any SetupCall.requiresManualControl) := by
    intro cs0
    obtain ⟨h1, h2, h3, h4⟩ := ModeBase.setups_spec cs0 m hinv
    unfold ModeBase.StoredInv at h1
    rw [h1, h3, hmanual, Bool.false_or]
    congr 1
    unfold ModeBase.configurations
    rw [h2, htypes, List.nil_append]
    exact List.map_congr_left fun p _ => h4 p
  refine ⟨key cs, ?_, fun cs' ha hm => ?_, fun m' => rfl⟩
  · rw [(ModeBase.setups_spec cs m hinv).2.1, htypes, List.nil_append]
  · rw [key cs', key cs, ha, hm]

/-- The claim C19 on the new mode "Orbit": the manual control input created between the two
additions, or before them, gives the same stored record, with relaxed local position. -/
theorem setups_stored_requirements_witness :
    orbitModeNew._setpoint_types = [] ∧ orbitModeNew._require_manual_control_input = false ∧
      orbitModeNew.storedRequirements = {} ∧
      (orbitModeNew.setups [.addSetpointType 0, .createManualControlInput false,
          .createManualControlInput true, .addSetpointType 1]).storedRequirements =
        { angular_velocity := true, local_position_relaxed := true, manual_control := true } ∧
      (orbitModeNew.setups [.createManualControlInput false, .addSetpointType 0,
          .addSetpointType 1]).storedRequirements =
        (orbitModeNew.setups [.addSetpointType 0, .createManualControlInput false,
          .createManualControlInput true, .addSetpointType 1]).storedRequirements :=
  ⟨rfl, rfl, rfl,
    ((setups_stored_requirements orbitModeNew _ rfl rfl rfl).1).trans (by decide),
    (setups_stored_requirements orbitModeNew [.addSetpointType 0,
      .createManualControlInput false, .createManualControlInput true, .addSetpointType 1]
      rfl rfl rfl).2.2.1 [.createManualControlInput false, .addSetpointType 0,
        .addSetpointType 1] (by decide) (by decide)⟩

namespace ModeBase

/-! ## Recomputation overwrites the stored requirements -/

theorem modeRequirementsFromSetpoints_unset (configs : List Configuration)
    (require_manual_control_input : Bool) :
    (modeRequirementsFromSetpoints configs require_manual_control_input).global_position =
        false ∧
      (modeRequirementsFromSetpoints configs require_manual_control_input).mission = false ∧
      (modeRequirementsFromSetpoints configs require_manual_control_input).home_position =
        false ∧
      (modeRequirementsFromSetpoints configs require_manual_control_input).prevent_arming =
        false := by
  unfold modeRequirementsFromSetpoints
  rw [foldl_requirementsLoopBody]
  cases require_manual_control_input <;>
    cases h : (configs.any fun c => c.velocity_enabled || c.position_enabled) <;> simp [h]

theorem addSetpointTypeImpl_stored (m : ModeBase) (setpoint : Nat) :
    (m.addSetpointTypeImpl setpoint).storedRequirements =
      modeRequirementsFromSetpoints
        (m.configurations ++ [(m._heap setpoint).getConfiguration])
        m._require_manual_control_input := by
  unfold addSetpointTypeImpl
  dsimp only
  rw [updateModeRequirementsFromSetpoints_stored]
  congr 1
  unfold configurations updateObject SetpointBase.setShouldActivateCallback
    SetpointBase.getConfiguration
  dsimp only
  rw [List.map_append, List.map_singleton]
  congr 1
  · exact List.map_congr_left fun p _ => by split_ifs <;> rfl
  · simp

theorem createManualControlInput_stored (m : ModeBase) :
    (m.createManualControlInput false).storedRequirements =
      modeRequirementsFromSetpoints m.configurations true := by
  unfold createManualControlInput
  simp only [Bool.not_false, if_true]
  rw [updateModeRequirementsFromSetpoints_stored]
  rfl

end ModeBase

/-- C21: recomputing the requirements overwrites the stored record. Whatever record the
mode has stored, by `setModeRequirements` or through `modeRequirements()`, after
`addSetpointTypeImpl` or `createManualControlInput(false)` the stored record is the
aggregate of the registered setpoint configurations and of the manual-control flag, the same
as without the stored record, and its flags `global_position`, `mission`, `home_position`
and `prevent_arming` are false. So the record `handSetRequirements` put into the new mode
"Orbit" is gone after the first setpoint type has been added. -/
theorem recompute_overwrites_stored (m : ModeBase) (stored : ModeRequirements)
    (setpoint : Nat) :
    (m.withStoredRequirements stored).storedRequirements = stored ∧
      ((m.withStoredRequirements stored).addSetpointTypeImpl setpoint).storedRequirements =
        ModeBase.modeRequirementsFromSetpoints
          (m.configurations ++ [(m._heap setpoint).getConfiguration])
          m._require_manual_control_input ∧
      ((m.withStoredRequirements stored).createManualControlInput false).storedRequirements =
        ModeBase.modeRequirementsFromSetpoints m.configurations true ∧
      ((m.withStoredRequirements stored).addSetpointTypeImpl setpoint).storedRequirements =
        (m.addSetpointTypeImpl setpoint).storedRequirements ∧
      ((m.withStoredRequirements stored).createManualControlInput false).storedRequirements =
        (m.createManualControlInput false).storedRequirements ∧
      (((m.withStoredRequirements stored).addSetpointTypeImpl
          setpoint).storedRequirements.global_position = false ∧
        ((m.withStoredRequirements stored).addSetpointTypeImpl
          setpoint).storedRequirements.mission = false ∧
        ((m.withStoredRequirements stored).addSetpointTypeImpl
          setpoint).storedRequirements.home_position = false ∧
        ((m.withStoredRequirements stored).addSetpointTypeImpl
          setpoint).storedRequirements.prevent_arming = false) ∧
      (((m.withStoredRequirements stored).createManualControlInput
          false).storedRequirements.global_position = false ∧
        ((m.withStoredRequirements stored).createManualControlInput
          false).storedRequirements.mission = false ∧
        ((m.withStoredRequirements stored).createManualControlInput
          false).storedRequirements.home_position = false ∧
        ((m.withStoredRequirements stored).createManualControlInput
          false).storedRequirements.prevent_arming = false) ∧
      (orbitModeNew.withStoredRequirements handSetRequirements).storedRequirements =
        handSetRequirements ∧
      ((orbitModeNew.withStoredRequirements handSetRequirements).addSetpointTypeImpl
        0).storedRequirements = { angular_velocity := true } := by
  have hadd : ((m.withStoredRequirements stored).addSetpointTypeImpl
      setpoint).storedRequirements =
      ModeBase.modeRequirementsFromSetpoints
        (m.configurations ++ [(m._heap setpoint).getConfiguration])
        m._require_manual_control_input :=
    ModeBase.addSetpointTypeImpl_stored (m.withStoredRequirements stored) setpoint
  have hman : ((m.withStoredRequirements stored).createManualControlInput
      false).storedRequirements =
      ModeBase.modeRequirementsFromSetpoints m.configurations true :=
    ModeBase.createManualControlInput_stored (m.withStoredRequirements stored)
  refine ⟨rfl, hadd, hman, ?_, ?_, ?_, ?_, rfl, by decide⟩
  · rw [hadd, ModeBase.addSetpointTypeImpl_stored]
  · rw [hman, ModeBase.createManualControlInput_stored]
  · rw [hadd]; exact ModeBase.modeRequirementsFromSetpoints_unset _ _
  · rw [hman]; exact ModeBase.modeRequirementsFromSetpoints_unset _ _

end px4_sdk
